import Mathlib

/-!
Shallow embedding of the helpdesk ticket lifecycle engine
(`helpdesk/models.py` and `helpdesk/signals.py`).

Users, tickets, trigger rules, history records and notifications are
modelled as Lean structures; Django model instances referenced by foreign
key are embedded as the referenced structure itself (equality of model
instances is equality of rows).  Timestamps are abstract `Nat` instants
supplied by the caller (the model of `timezone.now()`).  The database is a
`DB` structure holding the persisted rows; `save()` and the signal
handlers become pure functions from instance and database to the new
database together with the lists of history records and notifications
they emit.
-/

namespace Helpdesk

/-- Python's `str.lower()` (ASCII case folding, per-character). -/
def str_lower (s : String) : String := ⟨s.data.map Char.toLower⟩

/-- Python's `str.strip()`: drop whitespace from both ends. -/
def str_strip (s : String) : String :=
  ⟨((s.data.dropWhile Char.isWhitespace).reverse.dropWhile Char.isWhitespace).reverse⟩

/-- Accumulator loop behind `str.split(sep)` for a one-character
separator. -/
def split_on_char (sep : Char) : List Char → List Char → List (List Char)
  | [], acc => [acc.reverse]
  | c :: cs, acc =>
    if c = sep then acc.reverse :: split_on_char sep cs []
    else split_on_char sep cs (c :: acc)

/-- Python's `s.split(sep)` for a one-character separator. -/
def str_split (s : String) (sep : Char) : List String :=
  (split_on_char sep s.data []).map (fun l => ⟨l⟩)

/-- Value of a decimal digit string. -/
def digits_to_nat (l : List Char) : Nat :=
  l.foldl (fun n c => n * 10 + (c.toNat - 48)) 0

/-- Python's `int(s)` restricted to the digit strings it accepts. -/
def str_toNat? (s : String) : Option Nat :=
  if s.data ≠ [] ∧ s.data.all (fun c => c.isDigit) then some (digits_to_nat s.data)
  else none

/-- Python's `hay.startswith(needle)`. -/
def str_isPrefixOf (needle hay : String) : Bool :=
  needle.data.isPrefixOf hay.data

/-- A `CustomUser` row: id, username, name parts and role
(`"client"`, `"agent"` or `"admin"`). -/
structure User where
  id : Nat
  username : String
  first_name : String
  last_name : String
  role : String
deriving DecidableEq, Repr

/-- The `CustomUser.is_client` property. -/
def User.is_client (u : User) : Bool := u.role = "client"

/-- The `CustomUser.is_agent` property. -/
def User.is_agent (u : User) : Bool := u.role = "agent"

/-- The `CustomUser.is_admin` property. -/
def User.is_admin (u : User) : Bool := u.role = "admin"

/-- Model of `user.get_full_name() or user.username` as used in message texts:
Django's `get_full_name` is `f"{first_name} {last_name}".strip()`, and the
`or` falls back to the username when that is empty. -/
def User.display_name (u : User) : String :=
  let fn := str_strip (u.first_name ++ " " ++ u.last_name)
  if fn = "" then u.username else fn

/-- A `Ticket` row / in-memory instance.  `pk = none` marks an unsaved
instance (Django's `self.pk` before the first `INSERT`).  Foreign keys to
users are embedded as the user structure. -/
structure Ticket where
  pk : Option Nat
  ticket_number : String
  subject : String
  description : String
  category : Option Nat
  severity : String
  priority : String
  status : String
  created_by : User
  assigned_to : Option User
  resolved_at : Option Nat
  closed_at : Option Nat
  is_escalated : Bool
  escalated_at : Option Nat
  escalated_by : Option User
deriving DecidableEq, Repr

/-- A `TriggerRule` row. -/
structure TriggerRule where
  name : String
  keywords : String
  action : String
  category : Option Nat
  notify_users : List User
  is_active : Bool
deriving DecidableEq, Repr

/-- A `TicketHistory` row; `ticket` is the ticket's primary key. -/
structure HistoryRecord where
  ticket : Nat
  action_type : String
  actor : Option User
  description : String
  old_value : Option String
  new_value : Option String
deriving DecidableEq, Repr

/-- A `Notification` row. -/
structure Notification where
  recipient : User
  notification_type : String
  title : String
  message : String
  ticket : Option Nat
deriving DecidableEq, Repr

/-- The persistent store: ticket, trigger-rule, user, history and
notification tables. -/
structure DB where
  tickets : List Ticket
  rules : List TriggerRule
  users : List User
  history : List HistoryRecord
  notifications : List Notification
deriving Repr

/-- Python's `needle in hay` on strings: contiguous-substring test. -/
def substr (needle hay : String) : Bool :=
  decide (needle.data <:+: hay.data)

/-- Model of `f"{self.subject} {self.description}".lower()`. -/
def Ticket.lower_text (t : Ticket) : String :=
  str_lower (t.subject ++ " " ++ t.description)

/-- Model of `get_status_display()`: maps a status code to its human label,
falling back to the raw value for codes outside the choice list. -/
def status_display : String → String
  | "open" => "Open"
  | "in_progress" => "In Progress"
  | "pending" => "Pending Customer Response"
  | "resolved" => "Resolved"
  | "closed" => "Closed"
  | s => s

/-- Model of `get_priority_display()`. -/
def priority_display : String → String
  | "low" => "Low"
  | "medium" => "Medium"
  | "high" => "High"
  | "critical" => "Critical"
  | s => s

/-- The fixed critical keyword set of `Ticket.auto_prioritize`. -/
def critical_keywords : List String :=
  ["critical", "emergency", "outage", "down", "breach", "security breach", "data loss"]

/-- The fixed high keyword set of `Ticket.auto_prioritize`. -/
def high_keywords : List String :=
  ["urgent", "high", "important", "asap", "immediate", "production"]

/-- Model of `Ticket.auto_prioritize`: scan the lower-cased subject+description and
force priority to `critical` / `high` on a keyword hit. -/
def auto_prioritize (t : Ticket) : Ticket :=
  let text := t.lower_text
  if critical_keywords.any (fun k => substr k text) then
    { t with priority := "critical" }
  else if high_keywords.any (fun k => substr k text) then
    { t with priority := "high" }
  else t

/-- Model of `Ticket.escalate(escalated_by=None)`: idempotent escalation with a
one-step priority bump.  `now` models `timezone.now()`. -/
def escalate (t : Ticket) (now : Nat) (escalated_by : Option User) : Ticket :=
  if !t.is_escalated then
    let t1 := { t with is_escalated := true, escalated_at := some now,
                       escalated_by := escalated_by }
    if t1.priority = "low" then { t1 with priority := "medium" }
    else if t1.priority = "medium" then { t1 with priority := "high" }
    else if t1.priority = "high" then { t1 with priority := "critical" }
    else t1
  else t

/-- Model of `TriggerRule.get_keyword_list`: split on commas, keep the entries
whose strip is nonempty, stripped and lower-cased. -/
def get_keyword_list (r : TriggerRule) : List String :=
  (((str_split r.keywords ',').filter (fun k => str_strip k ≠ "")).map
    (fun k => str_lower (str_strip k)))

/-- Whether a rule's keyword list has a substring hit in the ticket's
lower-cased subject+description. -/
def rule_matches (r : TriggerRule) (t : Ticket) : Bool :=
  (get_keyword_list r).any (fun k => substr k t.lower_text)

/-- One iteration of the `check_trigger_rules` loop body: apply a matching
rule's action to the instance. -/
def apply_rule (now : Nat) (t : Ticket) (r : TriggerRule) : Ticket :=
  if rule_matches r t then
    if r.action = "escalate" then escalate t now none
    else if r.action = "priority_high" then { t with priority := "high" }
    else if r.action = "priority_critical" then { t with priority := "critical" }
    else t
  else t

/-- Model of `Ticket.check_trigger_rules`: iterate over the active rules in store
order and apply each matching rule's action. -/
def check_trigger_rules (t : Ticket) (rules : List TriggerRule) (now : Nat) : Ticket :=
  (rules.filter (fun r => r.is_active)).foldl (apply_rule now) t

/-- Model of `f"{n:04d}"`: decimal rendering zero-padded on the left to at least
four digits — for `n < 10000` exactly the four decimal digits of `n`,
and the full decimal rendering for larger numbers. -/
def pad4 (n : Nat) : String :=
  if n < 10000 then
    ⟨[Nat.digitChar (n / 1000 % 10), Nat.digitChar (n / 100 % 10),
      Nat.digitChar (n / 10 % 10), Nat.digitChar (n % 10)]⟩
  else toString n

/-- Lexicographic order on character lists by code point, the order a
string column sorts by: Python-style `a <= b` on strings. -/
def list_le : List Char → List Char → Bool
  | [], _ => true
  | _ :: _, [] => false
  | a :: as, b :: bs =>
    if a < b then true
    else if b < a then false
    else list_le as bs

/-- Lexicographic `a <= b` on strings. -/
def str_le (a b : String) : Bool := list_le a.data b.data

/-- One step of `order_by('-ticket_number').first()`: keep whichever row
has the larger ticket-number string. -/
def pick_last (acc : Option Ticket) (tk : Ticket) : Option Ticket :=
  match acc with
  | none => some tk
  | some best =>
    if str_le tk.ticket_number best.ticket_number then some best else some tk

/-- Model of `order_by('-ticket_number').first()` over the already
filtered rows: the row whose ticket-number string is lexicographically
largest. -/
def last_by_ticket_number (tickets : List Ticket) : Option Ticket :=
  tickets.foldl pick_last none

/-- The sequence component of a stored ticket number:
`int(ticket_number.split('-')[2])`.  The parse is fallible as in the
source, where a missing third component raises `IndexError` and a
non-digit one raises `ValueError`. -/
def seq_of? (tk : Ticket) : Option Nat :=
  ((str_split tk.ticket_number '-')[2]?).bind str_toNat?

/-- Model of `Ticket.generate_ticket_number`: filter the stored tickets
whose number starts with `BRTS-{year}`, take the one whose
ticket-number string is lexicographically largest (the descending
string sort of the source), parse its third dash-component and add one,
defaulting to 1 when no row matches.  The `getD 0` stands where the
source would raise on an unparsable stored number; the C4 theorem's
well-formedness hypothesis keeps that default unexercised. -/
def generate_ticket_number (year : Nat) (tickets : List Ticket) : String :=
  let matching := tickets.filter fun tk =>
    str_isPrefixOf ("BRTS-" ++ toString year) tk.ticket_number
  let new_number :=
    match last_by_ticket_number matching with
    | none => 1
    | some last => (seq_of? last).getD 0 + 1
  "BRTS-" ++ toString year ++ "-" ++ pad4 new_number

/-- The resolved/closed timestamp block at the end of `Ticket.save`. -/
def stamp_timestamps (t : Ticket) (now : Nat) : Ticket :=
  if t.status = "resolved" ∧ t.resolved_at = none then
    { t with resolved_at := some now }
  else if t.status = "closed" ∧ t.closed_at = none then
    { t with closed_at := some now }
  else t

/-- The first two blocks of `Ticket.save`: assign a ticket number when
none exists, then run auto-prioritization and trigger rules for unsaved
instances only. -/
def save_body (t : Ticket) (rules : List TriggerRule) (tickets : List Ticket)
    (year now : Nat) : Ticket :=
  let t1 := if t.ticket_number = "" then
      { t with ticket_number := generate_ticket_number year tickets }
    else t
  if t1.pk = none then check_trigger_rules (auto_prioritize t1) rules now
  else t1

/-- The pure part of `Ticket.save` (everything before `super().save()`):
the number/auto-prioritization/trigger blocks followed by the
resolved/closed timestamp block. -/
def save_compute (t : Ticket) (rules : List TriggerRule) (tickets : List Ticket)
    (year now : Nat) : Ticket :=
  stamp_timestamps (save_body t rules tickets year now) now

/-- Model of `get_role_display()`. -/
def role_display : String → String
  | "client" => "Client"
  | "agent" => "Support Agent"
  | "admin" => "Administrator"
  | s => s

/-- Model of `str(user)`: `f"{username} ({role display})"`. -/
def str_user (u : User) : String :=
  u.username ++ " (" ++ role_display u.role ++ ")"

/-- Model of `get_full_name()` without a username fallback (used by the
escalation history description). -/
def User.full_name (u : User) : String :=
  str_strip (u.first_name ++ " " ++ u.last_name)

/-- The `created` history record written by `ticket_post_save` on
creation. -/
def created_history (t : Ticket) : HistoryRecord :=
  { ticket := t.pk.getD 0, action_type := "created", actor := some t.created_by,
    description := "Ticket created with subject: " ++ t.subject,
    old_value := none,
    new_value := some ("Status: " ++ t.status ++ ", Priority: " ++ t.priority) }

/-- The status block of `log_ticket_changes`: on a status change, one
`status_changed` history record and one notification to the creator.
The source's `if instance.created_by` guard is always true (the creator
foreign key is non-nullable), so the notification is emitted
unconditionally. -/
def status_diff (instance_t original : Ticket) :
    List HistoryRecord × List Notification :=
  if instance_t.status ≠ original.status then
    ([{ ticket := instance_t.pk.getD 0, action_type := "status_changed",
        actor := none,
        description := "Status changed from " ++ status_display original.status ++
          " to " ++ status_display instance_t.status,
        old_value := some original.status, new_value := some instance_t.status }],
     [{ recipient := instance_t.created_by, notification_type := "status_changed",
        title := "Ticket " ++ instance_t.ticket_number ++ " Status Updated",
        message := "Your ticket status has been changed from " ++
          status_display original.status ++ " to " ++ status_display instance_t.status,
        ticket := instance_t.pk }])
  else ([], [])

/-- The assignment block of `log_ticket_changes`: on a change to a
non-null assignee, one `assigned`/`reassigned` history record and one
notification to the new assignee. -/
def assign_diff (instance_t original : Ticket) :
    List HistoryRecord × List Notification :=
  if instance_t.assigned_to ≠ original.assigned_to then
    match instance_t.assigned_to with
    | some a =>
      ([{ ticket := instance_t.pk.getD 0,
          action_type := if original.assigned_to.isSome then "reassigned" else "assigned",
          actor := none,
          description := "Ticket assigned to " ++ a.display_name,
          old_value := original.assigned_to.map str_user,
          new_value := some (str_user a) }],
       [{ recipient := a, notification_type := "ticket_assigned",
          title := "New Ticket Assigned: " ++ instance_t.ticket_number,
          message := "You have been assigned ticket: " ++ instance_t.subject,
          ticket := instance_t.pk }])
    | none => ([], [])
  else ([], [])

/-- The priority block of `log_ticket_changes`: one history record, no
notification. -/
def priority_diff (instance_t original : Ticket) :
    List HistoryRecord × List Notification :=
  if instance_t.priority ≠ original.priority then
    ([{ ticket := instance_t.pk.getD 0, action_type := "priority_changed",
        actor := none,
        description := "Priority changed from " ++ priority_display original.priority ++
          " to " ++ priority_display instance_t.priority,
        old_value := some original.priority, new_value := some instance_t.priority }],
     [])
  else ([], [])

/-- The escalation block of `log_ticket_changes`: on a false→true flag
transition, one history record and one notification per admin-role
user. -/
def escalation_diff (instance_t original : Ticket) (users : List User) :
    List HistoryRecord × List Notification :=
  if instance_t.is_escalated = true ∧ original.is_escalated = false then
    ([{ ticket := instance_t.pk.getD 0, action_type := "escalated",
        actor := instance_t.escalated_by,
        description := "Ticket escalated by " ++
          (match instance_t.escalated_by with
           | some u => u.full_name
           | none => "System"),
        old_value := none,
        new_value := some ("Priority: " ++ instance_t.priority) }],
     (users.filter (fun u => u.role = "admin")).map (fun admin =>
       { recipient := admin, notification_type := "ticket_escalated",
         title := "Ticket Escalated: " ++ instance_t.ticket_number,
         message := "Ticket has been escalated with priority: " ++
           priority_display instance_t.priority,
         ticket := instance_t.pk }))
  else ([], [])

/-- Model of `log_ticket_changes(instance, original)`: the four independent diff
blocks (status, assignment, priority, escalation) run in order, each
emitting its history records and notifications; `users` is the user
table, queried for admin-role recipients by the escalation block. -/
def log_ticket_changes (instance_t original : Ticket) (users : List User) :
    List HistoryRecord × List Notification :=
  ((status_diff instance_t original).1 ++ (assign_diff instance_t original).1 ++
     (priority_diff instance_t original).1 ++
     (escalation_diff instance_t original users).1,
   (status_diff instance_t original).2 ++ (assign_diff instance_t original).2 ++
     (priority_diff instance_t original).2 ++
     (escalation_diff instance_t original users).2)

/-- Model of `check_trigger_notifications`: one notification per recipient of each
active `notify` rule with a keyword hit. -/
def check_trigger_notifications (t : Ticket) (rules : List TriggerRule) :
    List Notification :=
  ((rules.filter (fun r => r.is_active ∧ r.action = "notify")).map (fun r =>
    if rule_matches r t then
      r.notify_users.map (fun u =>
        { recipient := u, notification_type := "trigger_activated",
          title := "Trigger Alert: " ++ r.name,
          message := "Ticket " ++ t.ticket_number ++ " matches trigger rule '" ++
            r.name ++ "'. Keywords detected: " ++
            String.intercalate ", " (get_keyword_list r),
          ticket := t.pk })
    else [])).flatten

/-- Model of `agent.assigned_tickets.filter(status__in=['open','in_progress']).count()`. -/
def agent_workload (agent : User) (tickets : List Ticket) : Nat :=
  (tickets.filter (fun tk => tk.assigned_to = some agent ∧
     (tk.status = "open" ∨ tk.status = "in_progress"))).length

/-- One iteration of the workload-minimisation loop of
`auto_assign_ticket`: keep the current agent when its workload is
strictly below the minimum so far (`none` is the `min_tickets = ∞`,
`best_agent = None` start, which the first agent always beats). -/
def pick_step (tickets : List Ticket) (acc : Option (User × Nat)) (agent : User) :
    Option (User × Nat) :=
  match acc with
  | none => some (agent, agent_workload agent tickets)
  | some (b, m) =>
    if agent_workload agent tickets < m then
      some (agent, agent_workload agent tickets)
    else some (b, m)

/-- The workload-minimisation loop of `auto_assign_ticket`. -/
def pick_best_agent (agents : List User) (tickets : List Ticket) : Option User :=
  (agents.foldl (pick_step tickets) none).map Prod.fst

/-- The outcome of one `save()` call: the new database, the in-memory
instance after the save, and the history records and notifications the
call emitted. -/
structure SaveResult where
  db : DB
  ticket : Ticket
  newHistory : List HistoryRecord
  newNotifications : List Notification

/-- A full `save()` on an instance with a primary key (the update path):
`pre_save` snapshots the stored row, `Ticket.save` runs its pure part,
the row is written back, and `post_save` (with `created=False`) runs
`log_ticket_changes` against the snapshot when one was found. -/
def update_ticket (t : Ticket) (db : DB) (year now : Nat) : SaveResult :=
  let original := db.tickets.find? (fun o => o.pk = t.pk)
  let t1 := save_compute t db.rules db.tickets year now
  let db1 := { db with tickets := db.tickets.map (fun o => if o.pk = t1.pk then t1 else o) }
  match original with
  | some o =>
    let emitted := log_ticket_changes t1 o db1.users
    ⟨{ db1 with history := db1.history ++ emitted.1,
                notifications := db1.notifications ++ emitted.2 },
     t1, emitted.1, emitted.2⟩
  | none => ⟨db1, t1, [], []⟩

/-- Model of `instance.save(update_fields=['assigned_to'])` as issued by
`auto_assign_ticket`: same control flow as `update_ticket`, but only the
`assigned_to` column of the stored row is written. -/
def save_assigned_only (t : Ticket) (db : DB) (year now : Nat) : SaveResult :=
  let original := db.tickets.find? (fun o => o.pk = t.pk)
  let t1 := save_compute t db.rules db.tickets year now
  let db1 := { db with tickets := db.tickets.map (fun o =>
      if o.pk = t1.pk then { o with assigned_to := t1.assigned_to } else o) }
  match original with
  | some o =>
    let emitted := log_ticket_changes t1 o db1.users
    ⟨{ db1 with history := db1.history ++ emitted.1,
                notifications := db1.notifications ++ emitted.2 },
     t1, emitted.1, emitted.2⟩
  | none => ⟨db1, t1, [], []⟩

/-- Model of `auto_assign_ticket`: on an unassigned ticket with a category, give
it to the strictly-agent-role user with the fewest open/in-progress
assigned tickets and persist that with a second save. -/
def auto_assign_ticket (t : Ticket) (db : DB) (year now : Nat) : SaveResult :=
  if t.assigned_to = none ∧ t.category.isSome then
    let agents := db.users.filter (fun u => u.role = "agent")
    if agents.isEmpty then ⟨db, t, [], []⟩
    else
      match pick_best_agent agents db.tickets with
      | some best => save_assigned_only { t with assigned_to := some best } db year now
      | none => ⟨db, t, [], []⟩
  else ⟨db, t, [], []⟩

/-- The primary key the store hands a newly inserted row: one above every
existing key. -/
def next_pk (db : DB) : Nat :=
  (db.tickets.foldl (fun m tk => max m (tk.pk.getD 0)) 0) + 1

/-- A full `save()` on an instance without a primary key (the creation
path): `Ticket.save` runs its pure part, the row is inserted with a fresh
key, and `post_save` (with `created=True`) writes the `created` history
record, runs `check_trigger_notifications`, then `auto_assign_ticket`
(whose nested save appends its own emissions). -/
def create_ticket (t : Ticket) (db : DB) (year now : Nat) : SaveResult :=
  let t1 := save_compute t db.rules db.tickets year now
  let t2 := { t1 with pk := some (next_pk db) }
  let db1 := { db with tickets := db.tickets ++ [t2] }
  let h := created_history t2
  let ns := check_trigger_notifications t2 db1.rules
  let db2 := { db1 with history := db1.history ++ [h],
                        notifications := db1.notifications ++ ns }
  let r := auto_assign_ticket t2 db2 year now
  ⟨r.db, r.ticket, h :: r.newHistory, ns ++ r.newNotifications⟩

/-- A `TicketComment` row; the ticket foreign key is embedded as the
ticket row itself. -/
structure TicketComment where
  ticket : Ticket
  author : User
  content : String
  is_internal : Bool
deriving DecidableEq, Repr

/-- Model of `instance.content[:100] + "..." if len(instance.content) > 100 else
instance.content`. -/
def truncate_comment (content : String) : String :=
  if content.length > 100 then (⟨content.data.take 100⟩ : String) ++ "..."
  else content

/-- Model of `comment_post_save` for a newly created comment: the `comment_added`
history record, and the notification fan-out to creator and assignee
(author excluded, clients excluded on internal comments). -/
def comment_post_save (c : TicketComment) : HistoryRecord × List Notification :=
  let h : HistoryRecord :=
    { ticket := c.ticket.pk.getD 0, action_type := "comment_added",
      actor := some c.author,
      description := "Comment added by " ++ c.author.display_name,
      old_value := none, new_value := some (truncate_comment c.content) }
  let users1 := if c.ticket.created_by ≠ c.author then [c.ticket.created_by] else []
  let users2 := users1 ++ (match c.ticket.assigned_to with
    | some a => if a ≠ c.author then [a] else []
    | none => [])
  let users3 := if c.is_internal then users2.filter (fun u => !u.is_client) else users2
  (h, users3.map (fun u =>
    { recipient := u, notification_type := "new_comment",
      title := "New Comment on Ticket " ++ c.ticket.ticket_number,
      message := "New comment by " ++ c.author.display_name,
      ticket := c.ticket.pk }))

/-! ### Helper lemmas -/

/-- The ticket fields untouched by escalation, auto-prioritization and
the trigger-rule actions, bundled so that preservation composes by
transitivity of equality. -/
def Ticket.core (t : Ticket) :=
  (t.pk, t.ticket_number, t.subject, t.description, t.category, t.severity,
   t.status, t.created_by, t.assigned_to, t.resolved_at, t.closed_at)

theorem core_eq_iff {a b : Ticket} : a.core = b.core ↔
    a.pk = b.pk ∧ a.ticket_number = b.ticket_number ∧ a.subject = b.subject ∧
    a.description = b.description ∧ a.category = b.category ∧
    a.severity = b.severity ∧ a.status = b.status ∧ a.created_by = b.created_by ∧
    a.assigned_to = b.assigned_to ∧ a.resolved_at = b.resolved_at ∧
    a.closed_at = b.closed_at := by
  simp [Ticket.core, Prod.mk.injEq]

theorem escalate_core (t : Ticket) (now : Nat) (b : Option User) :
    (escalate t now b).core = t.core := by
  simp only [escalate]
  split_ifs <;> rfl

theorem escalate_is_escalated (t : Ticket) (now : Nat) (b : Option User) :
    (escalate t now b).is_escalated = true := by
  simp only [escalate]
  split_ifs with h <;> simp_all

theorem auto_prioritize_core (t : Ticket) : (auto_prioritize t).core = t.core := by
  simp only [auto_prioritize]
  split_ifs <;> rfl

theorem apply_rule_core (now : Nat) (t : Ticket) (r : TriggerRule) :
    (apply_rule now t r).core = t.core := by
  simp only [apply_rule]
  split_ifs <;> first | rfl | exact escalate_core ..

theorem foldl_apply_rule_core (now : Nat) (rs : List TriggerRule) :
    ∀ t : Ticket, (rs.foldl (apply_rule now) t).core = t.core := by
  induction rs with
  | nil => intro t; rfl
  | cons r rs ih =>
    intro t
    exact (ih (apply_rule now t r)).trans (apply_rule_core now t r)

theorem check_trigger_rules_core (t : Ticket) (rules : List TriggerRule) (now : Nat) :
    (check_trigger_rules t rules now).core = t.core :=
  foldl_apply_rule_core now _ t

/-- Lemma: `lower_text` only looks at the subject and description. -/
theorem lower_text_congr {a b : Ticket} (h : a.core = b.core) :
    a.lower_text = b.lower_text := by
  obtain ⟨-, -, h1, h2, -⟩ := core_eq_iff.mp h
  simp [Ticket.lower_text, h1, h2]

/-- The ticket fields the timestamp block never touches. -/
def Ticket.nonstamp (t : Ticket) :=
  (t.pk, t.ticket_number, t.subject, t.description, t.category, t.severity,
   t.status, t.created_by, t.assigned_to, t.priority, t.is_escalated,
   t.escalated_at, t.escalated_by)

theorem nonstamp_eq_iff {a b : Ticket} : a.nonstamp = b.nonstamp ↔
    a.pk = b.pk ∧ a.ticket_number = b.ticket_number ∧ a.subject = b.subject ∧
    a.description = b.description ∧ a.category = b.category ∧
    a.severity = b.severity ∧ a.status = b.status ∧ a.created_by = b.created_by ∧
    a.assigned_to = b.assigned_to ∧ a.priority = b.priority ∧
    a.is_escalated = b.is_escalated ∧ a.escalated_at = b.escalated_at ∧
    a.escalated_by = b.escalated_by := by
  simp [Ticket.nonstamp, Prod.mk.injEq]

theorem stamp_nonstamp (t : Ticket) (now : Nat) :
    (stamp_timestamps t now).nonstamp = t.nonstamp := by
  simp only [stamp_timestamps]
  split_ifs <;> rfl

theorem stamp_resolved_some (t : Ticket) (now : Nat) {x : Nat}
    (h : t.resolved_at = some x) :
    (stamp_timestamps t now).resolved_at = some x := by
  simp only [stamp_timestamps]
  split_ifs with h1 h2 <;> simp_all

theorem stamp_closed_some (t : Ticket) (now : Nat) {x : Nat}
    (h : t.closed_at = some x) :
    (stamp_timestamps t now).closed_at = some x := by
  simp only [stamp_timestamps]
  split_ifs with h1 h2 <;> simp_all

theorem stamp_resolved_hit (t : Ticket) (now : Nat)
    (h1 : t.status = "resolved") (h2 : t.resolved_at = none) :
    (stamp_timestamps t now).resolved_at = some now := by
  simp [stamp_timestamps, h1, h2]

theorem stamp_closed_hit (t : Ticket) (now : Nat)
    (h1 : t.status = "closed") (h2 : t.closed_at = none) :
    (stamp_timestamps t now).closed_at = some now := by
  have : ¬ (t.status = "resolved") := by simp [h1]
  simp [stamp_timestamps, h1, h2, this]

theorem stamp_resolved_miss (t : Ticket) (now : Nat)
    (h : t.status ≠ "resolved") :
    (stamp_timestamps t now).resolved_at = t.resolved_at := by
  simp only [stamp_timestamps]
  split_ifs with h1 h2 <;> simp_all

theorem stamp_closed_miss (t : Ticket) (now : Nat)
    (h : t.status ≠ "closed") :
    (stamp_timestamps t now).closed_at = t.closed_at := by
  simp only [stamp_timestamps]
  split_ifs with h1 h2 <;> simp_all

/-- The fields `save_body` never touches (everything in `core` except
the ticket number). -/
def Ticket.base (t : Ticket) :=
  (t.pk, t.subject, t.description, t.category, t.severity, t.status,
   t.created_by, t.assigned_to, t.resolved_at, t.closed_at)

theorem base_eq_iff {a b : Ticket} : a.base = b.base ↔
    a.pk = b.pk ∧ a.subject = b.subject ∧ a.description = b.description ∧
    a.category = b.category ∧ a.severity = b.severity ∧ a.status = b.status ∧
    a.created_by = b.created_by ∧ a.assigned_to = b.assigned_to ∧
    a.resolved_at = b.resolved_at ∧ a.closed_at = b.closed_at := by
  simp [Ticket.base, Prod.mk.injEq]

theorem core_to_base {a b : Ticket} (h : a.core = b.core) : a.base = b.base := by
  obtain ⟨h1, -, h3, h4, h5, h6, h7, h8, h9, h10, h11⟩ := core_eq_iff.mp h
  exact base_eq_iff.mpr ⟨h1, h3, h4, h5, h6, h7, h8, h9, h10, h11⟩

theorem save_body_base (t : Ticket) (rules : List TriggerRule)
    (tickets : List Ticket) (year now : Nat) :
    (save_body t rules tickets year now).base = t.base := by
  simp only [save_body]
  by_cases h1 : t.ticket_number = "" <;> simp only [h1, if_true, if_false] <;>
    split_ifs <;>
    first
      | rfl
      | exact (core_to_base (check_trigger_rules_core ..)).trans
          (core_to_base (auto_prioritize_core _))
      | exact ((core_to_base (check_trigger_rules_core ..)).trans
          (core_to_base (auto_prioritize_core _))).trans rfl

theorem save_body_number_kept (t : Ticket) (rules : List TriggerRule)
    (tickets : List Ticket) (year now : Nat) (h : t.ticket_number ≠ "") :
    (save_body t rules tickets year now).ticket_number = t.ticket_number := by
  simp only [save_body, h, if_neg, if_false]
  split_ifs <;>
    first
      | rfl
      | exact ((core_eq_iff.mp (check_trigger_rules_core ..)).2.1).trans
          ((core_eq_iff.mp (auto_prioritize_core _)).2.1)

theorem save_body_number_fresh (t : Ticket) (rules : List TriggerRule)
    (tickets : List Ticket) (year now : Nat) (h : t.ticket_number = "") :
    (save_body t rules tickets year now).ticket_number =
      generate_ticket_number year tickets := by
  simp only [save_body, h, if_true]
  split_ifs <;>
    first
      | rfl
      | exact ((core_eq_iff.mp (check_trigger_rules_core ..)).2.1).trans
          ((core_eq_iff.mp (auto_prioritize_core _)).2.1)

/-- On the update path (`pk` present) `save_body` leaves priority and
the whole escalation state untouched. -/
theorem save_body_pk_some (t : Ticket) (rules : List TriggerRule)
    (tickets : List Ticket) (year now : Nat) {k : Nat} (h : t.pk = some k) :
    (save_body t rules tickets year now).priority = t.priority ∧
    (save_body t rules tickets year now).is_escalated = t.is_escalated ∧
    (save_body t rules tickets year now).escalated_at = t.escalated_at ∧
    (save_body t rules tickets year now).escalated_by = t.escalated_by := by
  simp only [save_body]
  by_cases h1 : t.ticket_number = "" <;> simp [h1, h]

/-- The ticket fields a full `save()` never touches. -/
def Ticket.fixed (t : Ticket) :=
  (t.pk, t.subject, t.description, t.category, t.severity, t.status,
   t.created_by, t.assigned_to)

theorem fixed_eq_iff {a b : Ticket} : a.fixed = b.fixed ↔
    a.pk = b.pk ∧ a.subject = b.subject ∧ a.description = b.description ∧
    a.category = b.category ∧ a.severity = b.severity ∧ a.status = b.status ∧
    a.created_by = b.created_by ∧ a.assigned_to = b.assigned_to := by
  simp [Ticket.fixed, Prod.mk.injEq]

theorem base_to_fixed {a b : Ticket} (h : a.base = b.base) : a.fixed = b.fixed := by
  obtain ⟨h1, h2, h3, h4, h5, h6, h7, h8, -⟩ := base_eq_iff.mp h
  exact fixed_eq_iff.mpr ⟨h1, h2, h3, h4, h5, h6, h7, h8⟩

theorem nonstamp_to_fixed {a b : Ticket} (h : a.nonstamp = b.nonstamp) :
    a.fixed = b.fixed := by
  obtain ⟨h1, -, h3, h4, h5, h6, h7, h8, h9, -⟩ := nonstamp_eq_iff.mp h
  exact fixed_eq_iff.mpr ⟨h1, h3, h4, h5, h6, h7, h8, h9⟩

theorem save_compute_fixed (t : Ticket) (rules : List TriggerRule)
    (tickets : List Ticket) (year now : Nat) :
    (save_compute t rules tickets year now).fixed = t.fixed :=
  (nonstamp_to_fixed (stamp_nonstamp ..)).trans
    (base_to_fixed (save_body_base ..))

theorem save_compute_resolved_some (t : Ticket) (rules : List TriggerRule)
    (tickets : List Ticket) (year now : Nat) {x : Nat} (h : t.resolved_at = some x) :
    (save_compute t rules tickets year now).resolved_at = some x :=
  stamp_resolved_some _ _ (((base_eq_iff.mp (save_body_base t rules tickets year now)).2.2.2.2.2.2.2.2.1).trans h)

theorem save_compute_closed_some (t : Ticket) (rules : List TriggerRule)
    (tickets : List Ticket) (year now : Nat) {x : Nat} (h : t.closed_at = some x) :
    (save_compute t rules tickets year now).closed_at = some x :=
  stamp_closed_some _ _ (((base_eq_iff.mp (save_body_base t rules tickets year now)).2.2.2.2.2.2.2.2.2).trans h)

theorem save_compute_resolved_hit (t : Ticket) (rules : List TriggerRule)
    (tickets : List Ticket) (year now : Nat)
    (h1 : t.status = "resolved") (h2 : t.resolved_at = none) :
    (save_compute t rules tickets year now).resolved_at = some now :=
  stamp_resolved_hit _ _
    (((base_eq_iff.mp (save_body_base t rules tickets year now)).2.2.2.2.2.1).trans h1)
    (((base_eq_iff.mp (save_body_base t rules tickets year now)).2.2.2.2.2.2.2.2.1).trans h2)

theorem save_compute_closed_hit (t : Ticket) (rules : List TriggerRule)
    (tickets : List Ticket) (year now : Nat)
    (h1 : t.status = "closed") (h2 : t.closed_at = none) :
    (save_compute t rules tickets year now).closed_at = some now :=
  stamp_closed_hit _ _
    (((base_eq_iff.mp (save_body_base t rules tickets year now)).2.2.2.2.2.1).trans h1)
    (((base_eq_iff.mp (save_body_base t rules tickets year now)).2.2.2.2.2.2.2.2.2).trans h2)

theorem save_compute_resolved_miss (t : Ticket) (rules : List TriggerRule)
    (tickets : List Ticket) (year now : Nat) (h : t.status ≠ "resolved") :
    (save_compute t rules tickets year now).resolved_at = t.resolved_at :=
  (stamp_resolved_miss _ _ (by
      rw [(base_eq_iff.mp (save_body_base t rules tickets year now)).2.2.2.2.2.1]
      exact h)).trans
    ((base_eq_iff.mp (save_body_base t rules tickets year now)).2.2.2.2.2.2.2.2.1)

theorem save_compute_closed_miss (t : Ticket) (rules : List TriggerRule)
    (tickets : List Ticket) (year now : Nat) (h : t.status ≠ "closed") :
    (save_compute t rules tickets year now).closed_at = t.closed_at :=
  (stamp_closed_miss _ _ (by
      rw [(base_eq_iff.mp (save_body_base t rules tickets year now)).2.2.2.2.2.1]
      exact h)).trans
    ((base_eq_iff.mp (save_body_base t rules tickets year now)).2.2.2.2.2.2.2.2.2)

theorem save_compute_number_kept (t : Ticket) (rules : List TriggerRule)
    (tickets : List Ticket) (year now : Nat) (h : t.ticket_number ≠ "") :
    (save_compute t rules tickets year now).ticket_number = t.ticket_number :=
  ((nonstamp_eq_iff.mp (stamp_nonstamp ..)).2.1).trans
    (save_body_number_kept t rules tickets year now h)

theorem save_compute_number_fresh (t : Ticket) (rules : List TriggerRule)
    (tickets : List Ticket) (year now : Nat) (h : t.ticket_number = "") :
    (save_compute t rules tickets year now).ticket_number =
      generate_ticket_number year tickets :=
  ((nonstamp_eq_iff.mp (stamp_nonstamp ..)).2.1).trans
    (save_body_number_fresh t rules tickets year now h)

theorem save_compute_pk_some (t : Ticket) (rules : List TriggerRule)
    (tickets : List Ticket) (year now : Nat) {k : Nat} (h : t.pk = some k) :
    (save_compute t rules tickets year now).priority = t.priority ∧
    (save_compute t rules tickets year now).is_escalated = t.is_escalated ∧
    (save_compute t rules tickets year now).escalated_at = t.escalated_at ∧
    (save_compute t rules tickets year now).escalated_by = t.escalated_by := by
  obtain ⟨p1, p2, p3, p4⟩ := save_body_pk_some t rules tickets year now h
  obtain ⟨-, -, -, -, -, -, -, -, -, q, q1, q2, q3⟩ :=
    nonstamp_eq_iff.mp (stamp_nonstamp (save_body t rules tickets year now) now)
  exact ⟨q.trans p1, q1.trans p2, q2.trans p3, q3.trans p4⟩

/-! ### C1 — auto-prioritization -/

/-- A ticket created with caller-supplied priority `critical` whose text
matches only the high keyword `urgent`. -/
def c1_ticket : Ticket :=
  { pk := none, ticket_number := "", subject := "Urgent request",
    description := "please assist", category := none, severity := "medium",
    priority := "critical", status := "open",
    created_by := ⟨1, "alice", "Alice", "Smith", "client"⟩, assigned_to := none,
    resolved_at := none, closed_at := none, is_escalated := false,
    escalated_at := none, escalated_by := none }

/-- C1 counterexample: auto-prioritization does lower a priority.  On a
ticket supplied with priority `critical` whose text matches a high
keyword (`urgent`) and no critical keyword, `auto_prioritize` sets the
priority to `high`, not `critical` as the claim states. -/
theorem c1_counterexample :
    c1_ticket.priority = "critical" ∧
    critical_keywords.any (fun k => substr k c1_ticket.lower_text) = false ∧
    high_keywords.any (fun k => substr k c1_ticket.lower_text) = true ∧
    (auto_prioritize c1_ticket).priority = "high" := by
  refine ⟨rfl, by decide, by decide, by decide⟩

/-- C1 (amended): auto-prioritization, which runs only at first creation,
sets the priority to `critical` if any critical keyword occurs as a
substring of the lower-cased subject+description, else sets it to `high`
if any high keyword occurs — even when the caller supplied a higher
priority, so the step can lower a caller-supplied `critical` to `high` —
else leaves the caller-supplied priority untouched; all other fields are
unchanged, and on the update path (`pk` present) `save` leaves the
priority alone. -/
theorem c1_auto_prioritize (t : Ticket) :
    ((∃ k ∈ critical_keywords, substr k t.lower_text = true) →
      auto_prioritize t = { t with priority := "critical" }) ∧
    ((¬ ∃ k ∈ critical_keywords, substr k t.lower_text = true) →
     (∃ k ∈ high_keywords, substr k t.lower_text = true) →
      auto_prioritize t = { t with priority := "high" }) ∧
    ((¬ ∃ k ∈ critical_keywords, substr k t.lower_text = true) →
     (¬ ∃ k ∈ high_keywords, substr k t.lower_text = true) →
      auto_prioritize t = t) ∧
    (∀ rules tickets year now k, t.pk = some k →
      (save_compute t rules tickets year now).priority = t.priority) := by
  refine ⟨?_, ?_, ?_, ?_⟩
  · intro h
    have hc : critical_keywords.any (fun k => substr k t.lower_text) = true :=
      List.any_eq_true.mpr (by simpa using h)
    simp [auto_prioritize, hc]
  · intro h1 h2
    have hc : critical_keywords.any (fun k => substr k t.lower_text) = false := by
      rw [Bool.eq_false_iff]
      intro hc
      exact h1 (by simpa using List.any_eq_true.mp hc)
    have hh : high_keywords.any (fun k => substr k t.lower_text) = true :=
      List.any_eq_true.mpr (by simpa using h2)
    simp [auto_prioritize, hc, hh]
  · intro h1 h2
    have hc : critical_keywords.any (fun k => substr k t.lower_text) = false := by
      rw [Bool.eq_false_iff]
      intro hc
      exact h1 (by simpa using List.any_eq_true.mp hc)
    have hh : high_keywords.any (fun k => substr k t.lower_text) = false := by
      rw [Bool.eq_false_iff]
      intro hh
      exact h2 (by simpa using List.any_eq_true.mp hh)
    simp [auto_prioritize, hc, hh]
  · intro rules tickets year now k h
    exact (save_compute_pk_some t rules tickets year now h).1

/-- A ticket whose text holds the critical keyword `outage`. -/
def c1_ticket_crit : Ticket :=
  { c1_ticket with subject := "Big outage", priority := "low" }

/-- A ticket whose text holds no auto-prioritization keyword at all. -/
def c1_ticket_plain : Ticket :=
  { c1_ticket with subject := "hello", description := "world", priority := "low" }

/-- Witness for C1 (amended) at concrete tickets: the critical branch,
the lowering high branch, and the untouched branch. -/
theorem c1_auto_prioritize_witness :
    auto_prioritize c1_ticket_crit = { c1_ticket_crit with priority := "critical" } ∧
    auto_prioritize c1_ticket = { c1_ticket with priority := "high" } ∧
    auto_prioritize c1_ticket_plain = c1_ticket_plain :=
  ⟨(c1_auto_prioritize c1_ticket_crit).1 ⟨"outage", by decide, by decide⟩,
   (c1_auto_prioritize c1_ticket).2.1 (by decide) ⟨"urgent", by decide, by decide⟩,
   (c1_auto_prioritize c1_ticket_plain).2.2.1 (by decide) (by decide)⟩

/-! ### C2 — escalation transition -/

/-- The escalation priority ladder exactly as the spec words it:
low→medium→high→critical, critical stays critical (any value outside the
ladder is likewise left unchanged).  Stated from the spec for comparison
with `escalate`. -/
def spec_priority_ladder : String → String
  | "low" => "medium"
  | "medium" => "high"
  | "high" => "critical"
  | p => p

theorem escalate_of_escalated (t : Ticket) (now : Nat) (b : Option User)
    (h : t.is_escalated = true) : escalate t now b = t := by
  simp [escalate, h]

/-- C2: `escalate` is idempotent — on an already-escalated ticket it
changes nothing at all (in particular flag, escalation timestamp, actor
and priority), and a second call after a first is a no-op — and on a
not-yet-escalated ticket it sets the flag, stamps the escalation time,
records the (possibly null) actor, and bumps the priority exactly one
step up the spec's ladder. -/
theorem c2_escalate (t : Ticket) (now now2 : Nat) (b b2 : Option User) :
    (t.is_escalated = true → escalate t now b = t) ∧
    escalate (escalate t now b) now2 b2 = escalate t now b ∧
    (t.is_escalated = false →
      (escalate t now b).is_escalated = true ∧
      (escalate t now b).escalated_at = some now ∧
      (escalate t now b).escalated_by = b ∧
      (escalate t now b).priority = spec_priority_ladder t.priority) := by
  refine ⟨escalate_of_escalated t now b,
    escalate_of_escalated _ now2 b2 (escalate_is_escalated t now b), ?_⟩
  intro h
  refine ⟨escalate_is_escalated t now b, ?_, ?_, ?_⟩ <;>
    · simp only [escalate, h, Bool.not_false, if_true]
      split_ifs with h1 h2 h3 <;> simp_all [spec_priority_ladder]

/-- An unescalated medium-priority ticket and an escalated one. -/
def c2_ticket : Ticket :=
  { c1_ticket_plain with priority := "medium" }

/-- Witness for C2 at concrete tickets: escalating a fresh
medium-priority ticket stamps everything and bumps to high; escalating
an escalated ticket is a no-op. -/
theorem c2_escalate_witness :
    (escalate c2_ticket 7 none).is_escalated = true ∧
    (escalate c2_ticket 7 none).escalated_at = some 7 ∧
    (escalate c2_ticket 7 none).escalated_by = none ∧
    (escalate c2_ticket 7 none).priority = spec_priority_ladder "medium" ∧
    escalate { c2_ticket with is_escalated := true } 9 none =
      { c2_ticket with is_escalated := true } :=
  have h := (c2_escalate c2_ticket 7 8 none none).2.2 rfl
  ⟨h.1, h.2.1, h.2.2.1, h.2.2.2,
   (c2_escalate { c2_ticket with is_escalated := true } 9 10 none none).1 rfl⟩

/-! ### C3 — trigger-rule evaluation -/

/-- C3: trigger-rule evaluation filters the store to the active rules
(inactive rules are never evaluated), folds over them in order, skips
rules without a keyword hit, and for a matching active rule applies its
action — `escalate` invokes the escalation transition with no acting
user, `priority_high` sets priority to `high` unconditionally (even on
an already-critical ticket), `priority_critical` sets it to `critical`;
and the whole evaluation runs only at first creation: on the update path
(`pk` present) `save` leaves priority and escalation state untouched. -/
theorem c3_check_trigger_rules (t : Ticket) (rules : List TriggerRule)
    (r : TriggerRule) (now : Nat) :
    check_trigger_rules t rules now =
      check_trigger_rules t (rules.filter (fun x => x.is_active)) now ∧
    check_trigger_rules t (r :: rules) now =
      check_trigger_rules (check_trigger_rules t [r] now) rules now ∧
    (r.is_active = false → check_trigger_rules t [r] now = t) ∧
    (r.is_active = true → rule_matches r t = false →
      check_trigger_rules t [r] now = t) ∧
    (r.is_active = true → rule_matches r t = true →
      (r.action = "escalate" → check_trigger_rules t [r] now = escalate t now none) ∧
      (r.action = "priority_high" →
        check_trigger_rules t [r] now = { t with priority := "high" }) ∧
      (r.action = "priority_critical" →
        check_trigger_rules t [r] now = { t with priority := "critical" })) ∧
    (∀ tickets year k, t.pk = some k →
      (save_compute t rules tickets year now).priority = t.priority ∧
      (save_compute t rules tickets year now).is_escalated = t.is_escalated) := by
  refine ⟨?_, ?_, ?_, ?_, ?_, ?_⟩
  · simp [check_trigger_rules, List.filter_filter]
  · by_cases h : r.is_active = true <;>
      simp [check_trigger_rules, List.filter_cons, h]
  · intro h
    simp [check_trigger_rules, List.filter_cons, h]
  · intro h1 h2
    simp [check_trigger_rules, List.filter_cons, h1, apply_rule, h2]
  · intro h1 h2
    refine ⟨?_, ?_, ?_⟩ <;> intro h3 <;>
      simp [check_trigger_rules, List.filter_cons, h1, apply_rule, h2, h3]
  · intro tickets year k h
    exact ⟨(save_compute_pk_some t rules tickets year now h).1,
           (save_compute_pk_some t rules tickets year now h).2.1⟩

/-- An active escalate rule matching on the keyword `broken`. -/
def c3_rule_escalate : TriggerRule :=
  ⟨"esc", " Broken , printer", "escalate", none, [], true⟩

/-- An active priority-high rule on the same keywords. -/
def c3_rule_high : TriggerRule :=
  { c3_rule_escalate with action := "priority_high" }

/-- A critical-priority ticket whose text holds `broken`. -/
def c3_ticket : Ticket :=
  { c1_ticket_plain with subject := "Printer broken", priority := "critical" }

/-- Witness for C3 at concrete inputs: a matching escalate rule invokes
the transition, a matching priority-high rule overwrites even a
critical priority down to high, and the same rule deactivated does
nothing. -/
theorem c3_check_trigger_rules_witness :
    check_trigger_rules c3_ticket [c3_rule_escalate] 3 =
      escalate c3_ticket 3 none ∧
    check_trigger_rules c3_ticket [c3_rule_high] 3 =
      { c3_ticket with priority := "high" } ∧
    check_trigger_rules c3_ticket [{ c3_rule_high with is_active := false }] 3 =
      c3_ticket :=
  ⟨((c3_check_trigger_rules c3_ticket [] c3_rule_escalate 3).2.2.2.2.1
      (by decide) (by decide)).1 rfl,
   ((c3_check_trigger_rules c3_ticket [] c3_rule_high 3).2.2.2.2.1
      (by decide) (by decide)).2.1 rfl,
   (c3_check_trigger_rules c3_ticket [] { c3_rule_high with is_active := false }
      3).2.2.1 rfl⟩

/-! ### C4 — ticket number generation -/

theorem foldl_max_init_le (l : List Nat) : ∀ a, a ≤ l.foldl max a := by
  induction l with
  | nil => intro a; exact le_refl a
  | cons x xs ih => intro a; exact le_trans (le_max_left a x) (ih (max a x))

theorem le_foldl_max_of_mem (l : List Nat) :
    ∀ a x, x ∈ l → x ≤ l.foldl max a := by
  induction l with
  | nil => intro a x hx; cases hx
  | cons y ys ih =>
    intro a x hx
    rcases List.mem_cons.mp hx with h | h
    · subst h
      exact le_trans (le_max_right a x) (foldl_max_init_le ys (max a x))
    · exact ih (max a y) x h

/-- The parsed sequence components of the stored tickets whose number
carries the given year's prefix — the pool whose maximum the claim
speaks about. -/
def year_seqs (year : Nat) (tickets : List Ticket) : List Nat :=
  (tickets.filter (fun tk =>
    str_isPrefixOf ("BRTS-" ++ toString year) tk.ticket_number)).filterMap seq_of?

/-- The in-memory instance produced by the update path is the one
`Ticket.save`'s pure part computes. -/
theorem update_ticket_ticket (t : Ticket) (db : DB) (year now : Nat) :
    (update_ticket t db year now).ticket =
      save_compute t db.rules db.tickets year now := by
  rcases h : db.tickets.find? (fun o => o.pk = t.pk) with _ | o <;>
    simp [update_ticket, h]

/-- Reflexivity of the lexicographic string order. -/
theorem list_le_refl (l : List Char) : list_le l l = true := by
  induction l with
  | nil => rfl
  | cons c cs ih => simp [list_le, ih]

/-- A shared prefix cancels in the lexicographic comparison. -/
theorem list_le_append_left (p : List Char) (a b : List Char) :
    list_le (p ++ a) (p ++ b) = list_le a b := by
  induction p with
  | nil => rfl
  | cons c cs ih => simp [list_le, ih]

/-- Decimal digit characters compare exactly like their digits. -/
theorem digitChar_lt_iff :
    ∀ d < 10, ∀ e < 10, (Nat.digitChar d < Nat.digitChar e ↔ d < e) := by
  decide

/-- Decimal digit characters are digit characters. -/
theorem digitChar_isDigit : ∀ d < 10, (Nat.digitChar d).isDigit = true := by
  decide

/-- Code point of a decimal digit character, back to the digit. -/
theorem digitChar_toNat : ∀ d < 10, (Nat.digitChar d).toNat - 48 = d := by
  decide

/-- Decimal digit characters are not the dash separator. -/
theorem digitChar_ne_dash : ∀ d < 10, Nat.digitChar d ≠ '-' := by
  decide

/-- Character-list contents of a string append. -/
theorem str_data_append (a b : String) : (a ++ b).data = a.data ++ b.data := by
  cases a
  cases b
  rfl

/-- Character-list contents of `pad4` inside the 4-digit range. -/
theorem pad4_data {n : Nat} (h : n < 10000) :
    (pad4 n).data = [Nat.digitChar (n / 1000 % 10), Nat.digitChar (n / 100 % 10),
      Nat.digitChar (n / 10 % 10), Nat.digitChar (n % 10)] := by
  simp [pad4, h]

/-- Inside the 4-digit range, the lexicographic order on zero-padded
renderings is the numeric order. -/
theorem pad4_le_iff {m k : Nat} (hm : m ≤ 9999) (hk : k ≤ 9999) :
    (str_le (pad4 m) (pad4 k) = true) ↔ m ≤ k := by
  have d1 : m / 1000 % 10 < 10 := Nat.mod_lt _ (by norm_num)
  have d2 : m / 100 % 10 < 10 := Nat.mod_lt _ (by norm_num)
  have d3 : m / 10 % 10 < 10 := Nat.mod_lt _ (by norm_num)
  have d4 : m % 10 < 10 := Nat.mod_lt _ (by norm_num)
  have e1 : k / 1000 % 10 < 10 := Nat.mod_lt _ (by norm_num)
  have e2 : k / 100 % 10 < 10 := Nat.mod_lt _ (by norm_num)
  have e3 : k / 10 % 10 < 10 := Nat.mod_lt _ (by norm_num)
  have e4 : k % 10 < 10 := Nat.mod_lt _ (by norm_num)
  rw [str_le, pad4_data (by omega), pad4_data (by omega)]
  simp only [list_le]
  split_ifs with h1 h2 h3 h4 h5 h6 h7 h8 <;>
    simp_all [digitChar_lt_iff _ d1 _ e1, digitChar_lt_iff _ e1 _ d1,
      digitChar_lt_iff _ d2 _ e2, digitChar_lt_iff _ e2 _ d2,
      digitChar_lt_iff _ d3 _ e3, digitChar_lt_iff _ e3 _ d3,
      digitChar_lt_iff _ d4 _ e4, digitChar_lt_iff _ e4 _ d4] <;>
    omega

/-- Zero-padded renderings are injective inside the 4-digit range. -/
theorem pad4_inj {m k : Nat} (hm : m ≤ 9999) (hk : k ≤ 9999)
    (h : pad4 m = pad4 k) : m = k := by
  have h1 : m ≤ k := (pad4_le_iff hm hk).mp (by rw [h]; exact list_le_refl _)
  have h2 : k ≤ m := (pad4_le_iff hk hm).mp (by rw [h]; exact list_le_refl _)
  omega

/-- Every character the decimal digit renderer emits (beyond its
accumulator) is a digit character. -/
theorem toDigitsCore_digits (fuel : Nat) : ∀ (n : Nat) (acc : List Char),
    (∀ c ∈ acc, c.isDigit = true) →
    ∀ c ∈ Nat.toDigitsCore 10 fuel n acc, c.isDigit = true := by
  induction fuel with
  | zero => intro n acc hacc c hc; exact hacc c hc
  | succ fuel ih =>
    intro n acc hacc c hc
    simp only [Nat.toDigitsCore] at hc
    split at hc
    · rcases List.mem_cons.mp hc with h | h
      · subst h
        exact digitChar_isDigit _ (Nat.mod_lt _ (by norm_num))
      · exact hacc c h
    · refine ih (n / 10) (Nat.digitChar (n % 10) :: acc) ?_ c hc
      intro x hx
      rcases List.mem_cons.mp hx with h | h
      · subst h
        exact digitChar_isDigit _ (Nat.mod_lt _ (by norm_num))
      · exact hacc x h

/-- Every character of the decimal rendering of a `Nat` is a digit. -/
theorem repr_digits (n : Nat) : ∀ c ∈ (toString n).data, c.isDigit = true := by
  intro c hc
  exact toDigitsCore_digits (n + 1) n [] (by intro x hx; cases hx) c hc

/-- A separator-free run splits as a single piece. -/
theorem split_on_char_no_sep (sep : Char) : ∀ (l acc : List Char),
    (∀ c ∈ l, c ≠ sep) →
    split_on_char sep l acc = [acc.reverse ++ l] := by
  intro l
  induction l with
  | nil => intro acc h; simp [split_on_char]
  | cons c cs ih =>
    intro acc h
    simp only [split_on_char]
    rw [if_neg (h c (List.mem_cons_self ..)),
        ih (c :: acc) (fun x hx => h x (List.mem_cons_of_mem c hx))]
    simp

/-- Splitting at the first separator after a separator-free run. -/
theorem split_on_char_sep (sep : Char) : ∀ (l1 l2 acc : List Char),
    (∀ c ∈ l1, c ≠ sep) →
    split_on_char sep (l1 ++ sep :: l2) acc =
      (acc.reverse ++ l1) :: split_on_char sep l2 [] := by
  intro l1
  induction l1 with
  | nil =>
    intro l2 acc h
    simp [split_on_char]
  | cons c cs ih =>
    intro l2 acc h
    simp only [List.cons_append, split_on_char, List.append_eq]
    rw [if_neg (h c (List.mem_cons_self ..)),
        ih l2 (c :: acc) (fun x hx => h x (List.mem_cons_of_mem c hx))]
    simp

/-- Parsing a zero-padded rendering with `int()`. -/
theorem str_toNat_pad4 (s : Nat) (hs : s ≤ 9999) :
    str_toNat? (pad4 s) = some s := by
  have d1 : s / 1000 % 10 < 10 := Nat.mod_lt _ (by norm_num)
  have d2 : s / 100 % 10 < 10 := Nat.mod_lt _ (by norm_num)
  have d3 : s / 10 % 10 < 10 := Nat.mod_lt _ (by norm_num)
  have d4 : s % 10 < 10 := Nat.mod_lt _ (by norm_num)
  simp only [str_toNat?, pad4_data (by omega : s < 10000)]
  rw [if_pos ⟨by simp, by
    simp [digitChar_isDigit _ d1, digitChar_isDigit _ d2,
      digitChar_isDigit _ d3, digitChar_isDigit _ d4]⟩]
  simp only [digits_to_nat, List.foldl_cons, List.foldl_nil,
    digitChar_toNat _ d1, digitChar_toNat _ d2, digitChar_toNat _ d3,
    digitChar_toNat _ d4]
  congr 1
  omega

/-- Parsing a generated number back: the third dash-component of
`BRTS-<year>-NNNN` is the sequence. -/
theorem seq_of_roundtrip (year s : Nat) (hs : s ≤ 9999) (tk : Ticket)
    (h : tk.ticket_number = "BRTS-" ++ toString year ++ "-" ++ pad4 s) :
    seq_of? tk = some s := by
  have hdata : tk.ticket_number.data =
      (['B', 'R', 'T', 'S'] ++ '-' ::
        ((toString year).data ++ '-' :: (pad4 s).data)) := by
    rw [h, str_data_append, str_data_append, str_data_append]
    simp
  have hyear : ∀ c ∈ (toString year).data, c ≠ '-' := by
    intro c hc heq
    have hd := repr_digits year c hc
    rw [heq] at hd
    exact absurd hd (by decide)
  have hpad : ∀ c ∈ (pad4 s).data, c ≠ '-' := by
    intro c hc
    rw [pad4_data (by omega : s < 10000)] at hc
    have e1 : s / 1000 % 10 < 10 := Nat.mod_lt _ (by norm_num)
    have e2 : s / 100 % 10 < 10 := Nat.mod_lt _ (by norm_num)
    have e3 : s / 10 % 10 < 10 := Nat.mod_lt _ (by norm_num)
    have e4 : s % 10 < 10 := Nat.mod_lt _ (by norm_num)
    simp only [List.mem_cons, List.not_mem_nil, or_false] at hc
    rcases hc with h1 | h1 | h1 | h1 <;>
      (subst h1
       first
         | exact digitChar_ne_dash _ e1
         | exact digitChar_ne_dash _ e2
         | exact digitChar_ne_dash _ e3
         | exact digitChar_ne_dash _ e4)
  have hsplit : str_split tk.ticket_number '-' =
      ["BRTS", ⟨(toString year).data⟩, ⟨(pad4 s).data⟩] := by
    rw [str_split, hdata,
        split_on_char_sep '-' ['B', 'R', 'T', 'S'] _ [] (by decide),
        split_on_char_sep '-' (toString year).data _ [] hyear,
        split_on_char_no_sep '-' (pad4 s).data [] hpad]
    simp
  rw [seq_of?, hsplit]
  show str_toNat? (pad4 s) = some s
  exact str_toNat_pad4 s hs

/-- A shared string prefix cancels in the padded comparison. -/
theorem str_le_pad4_shared_head (P : String) {m k : Nat} (hm : m ≤ 9999)
    (hk : k ≤ 9999) : (str_le (P ++ pad4 m) (P ++ pad4 k) = true) ↔ m ≤ k := by
  rw [str_le, str_data_append, str_data_append, list_le_append_left]
  exact pad4_le_iff hm hk

/-- Within one year the generated number determines the sequence. -/
theorem gen_number_inj (year : Nat) {s t : Nat} (hs : s ≤ 9999) (ht : t ≤ 9999)
    (h : "BRTS-" ++ toString year ++ "-" ++ pad4 s =
         "BRTS-" ++ toString year ++ "-" ++ pad4 t) : s = t := by
  have hd := congrArg String.data h
  simp only [str_data_append] at hd
  have h1 := List.append_cancel_left hd
  exact pad4_inj hs ht (String.ext h1)

/-- Reassociation of the generated number around its year prefix. -/
theorem gen_number_assoc (year : Nat) (x : String) :
    "BRTS-" ++ toString year ++ "-" ++ x =
      ("BRTS-" ++ toString year ++ "-") ++ x := by
  apply String.ext
  simp [str_data_append]

/-- A stored ticket number of the generated shape for the given year,
with its sequence inside the 4-digit regime and below the 9999
roll-over. -/
def wf_number (year : Nat) (tk : Ticket) : Prop :=
  ∃ s, 1 ≤ s ∧ s ≤ 9998 ∧
    tk.ticket_number = "BRTS-" ++ toString year ++ "-" ++ pad4 s

/-- Invariant of the descending-order pick: over well-formed rows the
lexicographically largest ticket number carries the numerically largest
sequence. -/
theorem pick_last_fold (year : Nat) : ∀ (l : List Ticket) (b : Ticket) (sb : Nat),
    1 ≤ sb → sb ≤ 9998 →
    b.ticket_number = "BRTS-" ++ toString year ++ "-" ++ pad4 sb →
    (∀ tk ∈ l, wf_number year tk) →
    ∃ r sr, l.foldl pick_last (some b) = some r ∧
      1 ≤ sr ∧ sr ≤ 9998 ∧
      r.ticket_number = "BRTS-" ++ toString year ++ "-" ++ pad4 sr ∧
      (r = b ∨ r ∈ l) ∧ sb ≤ sr ∧
      ∀ tk ∈ l, ∀ s, s ≤ 9999 →
        tk.ticket_number = "BRTS-" ++ toString year ++ "-" ++ pad4 s → s ≤ sr := by
  intro l
  induction l with
  | nil =>
    intro b sb h1 h2 hb hl
    exact ⟨b, sb, rfl, h1, h2, hb, Or.inl rfl, le_refl _,
      fun tk htk => absurd htk (List.not_mem_nil tk)⟩
  | cons a l ih =>
    intro b sb h1 h2 hb hl
    obtain ⟨sa, ha1, ha2, hna⟩ := hl a (List.mem_cons_self ..)
    rw [List.foldl_cons]
    by_cases hcmp : sa ≤ sb
    · have hle : str_le a.ticket_number b.ticket_number = true := by
        rw [hna, hb, gen_number_assoc, gen_number_assoc]
        exact (str_le_pad4_shared_head _ (by omega) (by omega)).mpr hcmp
      rw [show pick_last (some b) a = some b by simp [pick_last, hle]]
      obtain ⟨r, sr, hfold, i1, i2, i3, i4, i5, i6⟩ :=
        ih b sb h1 h2 hb (fun tk htk => hl tk (List.mem_cons_of_mem a htk))
      refine ⟨r, sr, hfold, i1, i2, i3, ?_, i5, ?_⟩
      · rcases i4 with h | h
        · exact Or.inl h
        · exact Or.inr (List.mem_cons_of_mem a h)
      · intro tk htk s hs hnum
        rcases List.mem_cons.mp htk with h | h
        · subst h
          have hssa : s = sa :=
            gen_number_inj year hs (by omega) (hnum.symm.trans hna)
          omega
        · exact i6 tk h s hs hnum
    · have hgt : str_le a.ticket_number b.ticket_number = false := by
        rw [hna, hb, Bool.eq_false_iff]
        intro hT
        rw [gen_number_assoc, gen_number_assoc] at hT
        exact hcmp ((str_le_pad4_shared_head _ (by omega) (by omega)).mp hT)
      rw [show pick_last (some b) a = some a by simp [pick_last, hgt]]
      obtain ⟨r, sr, hfold, i1, i2, i3, i4, i5, i6⟩ :=
        ih a sa ha1 ha2 hna (fun tk htk => hl tk (List.mem_cons_of_mem a htk))
      refine ⟨r, sr, hfold, i1, i2, i3, ?_, by omega, ?_⟩
      · rcases i4 with h | h
        · exact Or.inr (h ▸ List.mem_cons_self ..)
        · exact Or.inr (List.mem_cons_of_mem a h)
      · intro tk htk s hs hnum
        rcases List.mem_cons.mp htk with h | h
        · subst h
          have hssa : s = sa :=
            gen_number_inj year hs (by omega) (hnum.symm.trans hna)
          omega
        · exact i6 tk h s hs hnum

/-- C4 counterexample: the store after a year's 9999th and 10000th
creations holds the numbers `BRTS-2026-9999` and `BRTS-2026-10000`
(the latter generated by the roll-over itself); on the next creation the
descending string sort picks `BRTS-2026-9999` — lexicographically the
largest — so the source regenerates `BRTS-2026-10000`, which already
exists and is not the highest stored sequence (10000) plus one. -/
def c4_tk9999 : Ticket :=
  { c1_ticket_plain with pk := some 1, ticket_number := "BRTS-2026-9999" }

def c4_tk10000 : Ticket :=
  { c1_ticket_plain with pk := some 2, ticket_number := "BRTS-2026-10000" }

/-- C4 counterexample: at the store holding year-2026 sequences 9999 and
10000, the generated number duplicates the stored `BRTS-2026-10000`
instead of being the highest existing sequence plus one
(`BRTS-2026-10001`), so neither the uniqueness nor the highest-plus-one
clause of the claim survives past sequence 9999. -/
theorem c4_counterexample :
    year_seqs 2026 [c4_tk9999, c4_tk10000] = [9999, 10000] ∧
    c4_tk10000.ticket_number = "BRTS-2026-10000" ∧
    generate_ticket_number 2026 [c4_tk9999, c4_tk10000] = "BRTS-2026-10000" ∧
    generate_ticket_number 2026 [c4_tk9999, c4_tk10000] ≠ "BRTS-2026-10001" := by
  refine ⟨by decide, rfl, by decide, by decide⟩

/-- C4 (amended): over a store whose year-Y numbers are all of the
generated shape `BRTS-Y-NNNN` with 4-digit sequences at most 9998, the
generated ticket number is `BRTS-Y-NNNN` with a 4-digit sequence that is
strictly above every stored sequence of the year and is either 1 (no
stored tickets for the year) or the highest stored sequence plus one;
the number is assigned by `save` exactly when none exists yet and is
never recomputed on a later save. -/
theorem c4_ticket_number (year now : Nat) (t : Ticket) (rules : List TriggerRule)
    (tickets : List Ticket) (db : DB)
    (hwf : ∀ tk ∈ tickets,
      str_isPrefixOf ("BRTS-" ++ toString year) tk.ticket_number = true →
      ∃ s, 1 ≤ s ∧ s ≤ 9998 ∧
        tk.ticket_number = "BRTS-" ++ toString year ++ "-" ++ pad4 s) :
    (∃ n : Nat,
      generate_ticket_number year tickets =
        "BRTS-" ++ toString year ++ "-" ++ pad4 n ∧
      1 ≤ n ∧ n ≤ 9999 ∧ (pad4 n).length = 4 ∧
      (∀ s ∈ year_seqs year tickets, s < n) ∧
      (n = 1 ∨ n - 1 ∈ year_seqs year tickets)) ∧
    (t.ticket_number = "" →
      (save_compute t rules tickets year now).ticket_number =
        generate_ticket_number year tickets) ∧
    (t.ticket_number ≠ "" →
      (save_compute t rules tickets year now).ticket_number = t.ticket_number) ∧
    (t.ticket_number ≠ "" →
      (update_ticket t db year now).ticket.ticket_number = t.ticket_number) := by
  refine ⟨?_, save_compute_number_fresh t rules tickets year now,
    save_compute_number_kept t rules tickets year now, ?_⟩
  · rcases hm : tickets.filter (fun tk =>
        str_isPrefixOf ("BRTS-" ++ toString year) tk.ticket_number) with _ | ⟨m0, ms⟩
    · refine ⟨1, ?_, le_refl 1, by omega, by decide, ?_, Or.inl rfl⟩
      · simp [generate_ticket_number, hm, last_by_ticket_number]
      · intro s hs
        rw [year_seqs, hm] at hs
        cases hs
    · have hwfm : ∀ tk ∈ m0 :: ms, wf_number year tk := by
        intro tk htk
        have hmem : tk ∈ tickets.filter (fun tk =>
            str_isPrefixOf ("BRTS-" ++ toString year) tk.ticket_number) :=
          hm ▸ htk
        obtain ⟨htks, hpred⟩ := List.mem_filter.mp hmem
        exact hwf tk htks (by simpa using hpred)
      obtain ⟨s0, hs01, hs02, hn0⟩ := hwfm m0 (List.mem_cons_self ..)
      obtain ⟨r, sr, hfold, i1, i2, i3, i4, i5, i6⟩ :=
        pick_last_fold year ms m0 s0 hs01 hs02 hn0
          (fun tk htk => hwfm tk (List.mem_cons_of_mem m0 htk))
      have hrparse : seq_of? r = some sr :=
        seq_of_roundtrip year sr (by omega) r i3
      have hlast : last_by_ticket_number (tickets.filter (fun tk =>
          str_isPrefixOf ("BRTS-" ++ toString year) tk.ticket_number)) = some r := by
        rw [hm]
        show (m0 :: ms).foldl pick_last none = some r
        rw [List.foldl_cons, show pick_last none m0 = some m0 from rfl]
        exact hfold
      refine ⟨sr + 1, ?_, by omega, by omega, ?_, ?_, ?_⟩
      · simp only [generate_ticket_number]
        rw [hlast]
        simp [hrparse]
      · simp only [pad4]
        rw [if_pos (by omega : sr + 1 < 10000)]
        rfl
      · intro s hs
        rw [year_seqs, hm] at hs
        obtain ⟨tk, htk, hparse⟩ := List.mem_filterMap.mp hs
        obtain ⟨s2, hs21, hs22, hn2⟩ := hwfm tk htk
        have : seq_of? tk = some s2 :=
          seq_of_roundtrip year s2 (by omega) tk hn2
        have hss2 : s = s2 := by
          rw [this] at hparse
          exact (Option.some.inj hparse).symm
        rcases List.mem_cons.mp htk with h | h
        · subst h
          have : s2 = s0 := gen_number_inj year (by omega) (by omega)
            (hn2.symm.trans hn0)
          omega
        · have := i6 tk h s2 (by omega) hn2
          omega
      · refine Or.inr ?_
        rw [year_seqs, hm]
        simp only [Nat.add_sub_cancel]
        refine List.mem_filterMap.mpr ⟨r, ?_, hrparse⟩
        rcases i4 with h | h
        · exact h ▸ List.mem_cons_self ..
        · exact List.mem_cons_of_mem m0 h
  · intro h
    rw [update_ticket_ticket]
    exact save_compute_number_kept t db.rules db.tickets year now h

/-- Stored tickets for the C4 witness: 2026 sequences 41 and 7 and one
2025 ticket outside the year filter. -/
def c4_w41 : Ticket := { c1_ticket_plain with ticket_number := "BRTS-2026-0041" }

def c4_w7 : Ticket := { c1_ticket_plain with ticket_number := "BRTS-2026-0007" }

def c4_w2025 : Ticket := { c1_ticket_plain with ticket_number := "BRTS-2025-0300" }

/-- Witness for C4 (amended) at a concrete store: with stored 2026
sequences 41 and 7 (and one 2025 ticket), the next number is
`BRTS-2026-0042`; a ticket that already has a number keeps it through a
save. -/
theorem c4_ticket_number_witness :
    generate_ticket_number 2026 [c4_w41, c4_w7, c4_w2025] =
      "BRTS-" ++ toString 2026 ++ "-" ++ pad4 42 ∧
    (save_compute { c1_ticket_plain with ticket_number := "BRTS-2026-0001" }
        [] [] 2026 5).ticket_number = "BRTS-2026-0001" := by
  constructor
  · have hwf : ∀ tk ∈ [c4_w41, c4_w7, c4_w2025],
        str_isPrefixOf ("BRTS-" ++ toString 2026) tk.ticket_number = true →
        ∃ s, 1 ≤ s ∧ s ≤ 9998 ∧
          tk.ticket_number = "BRTS-" ++ toString 2026 ++ "-" ++ pad4 s := by
      intro tk htk hpre
      simp only [List.mem_cons, List.not_mem_nil, or_false] at htk
      rcases htk with h | h | h <;> subst h
      · exact ⟨41, by omega, by omega, by decide⟩
      · exact ⟨7, by omega, by omega, by decide⟩
      · exact absurd hpre (by decide)
    have h := (c4_ticket_number 2026 5 c1_ticket_plain []
      [c4_w41, c4_w7, c4_w2025] ⟨[], [], [], [], []⟩ hwf).1
    obtain ⟨n, hgen, -, -, -, hlt, hson⟩ := h
    have hseqs : year_seqs 2026 [c4_w41, c4_w7, c4_w2025] = [41, 7] := by
      decide
    have h41 : 41 < n := hlt 41 (by rw [hseqs]; decide)
    have hn : n = 42 := by
      rcases hson with h1 | h1
      · omega
      · rw [hseqs] at h1
        simp only [List.mem_cons, List.not_mem_nil, or_false] at h1
        omega
    rw [hn] at hgen
    exact hgen
  · exact (c4_ticket_number 2026 5
      { c1_ticket_plain with ticket_number := "BRTS-2026-0001" } [] []
      ⟨[], [], [], [], []⟩ (by intro tk htk; cases htk)).2.2.1 (by decide)


/-! ### C7 — resolved/closed timestamps -/

/-- C7: for every save (the timestamp block runs on the pure part of
`save`, shared by the creation and update paths), a timestamp already
set is never changed; `resolved_at` is stamped exactly on a save whose
status is `resolved` with no prior stamp, `closed_at` on a save whose
status is `closed` with no prior stamp; a save in any other status
leaves each timestamp as it was — and the instance the update path
yields is exactly the one the pure part computes. -/
theorem c7_timestamps (t : Ticket) (rules : List TriggerRule)
    (tickets : List Ticket) (year now : Nat) (db : DB) (x : Nat) :
    (t.resolved_at = some x →
      (save_compute t rules tickets year now).resolved_at = some x) ∧
    (t.closed_at = some x →
      (save_compute t rules tickets year now).closed_at = some x) ∧
    (t.status = "resolved" → t.resolved_at = none →
      (save_compute t rules tickets year now).resolved_at = some now) ∧
    (t.status = "closed" → t.closed_at = none →
      (save_compute t rules tickets year now).closed_at = some now) ∧
    (t.status ≠ "resolved" →
      (save_compute t rules tickets year now).resolved_at = t.resolved_at) ∧
    (t.status ≠ "closed" →
      (save_compute t rules tickets year now).closed_at = t.closed_at) ∧
    (update_ticket t db year now).ticket =
      save_compute t db.rules db.tickets year now :=
  ⟨fun h => save_compute_resolved_some t rules tickets year now h,
   fun h => save_compute_closed_some t rules tickets year now h,
   save_compute_resolved_hit t rules tickets year now,
   save_compute_closed_hit t rules tickets year now,
   save_compute_resolved_miss t rules tickets year now,
   save_compute_closed_miss t rules tickets year now,
   update_ticket_ticket t db year now⟩

/-- Witness for C7 at concrete tickets: a first save in status
`resolved` stamps `resolved_at := 11`; saving the result again (still
`resolved`) keeps the stamp at 11; a later save in status `open` keeps
it too. -/
theorem c7_timestamps_witness :
    (save_compute { c1_ticket_plain with status := "resolved" } [] [] 2026 11).resolved_at = some 11 ∧
    (save_compute { c1_ticket_plain with status := "resolved", resolved_at := some 11 } [] [] 2026 12).resolved_at = some 11 ∧
    (save_compute { c1_ticket_plain with status := "open", resolved_at := some 11 } [] [] 2026 13).resolved_at = some 11 :=
  ⟨(c7_timestamps { c1_ticket_plain with status := "resolved" } [] [] 2026 11
      ⟨[], [], [], [], []⟩ 11).2.2.1 rfl rfl,
   (c7_timestamps { c1_ticket_plain with status := "resolved", resolved_at := some 11 }
      [] [] 2026 12 ⟨[], [], [], [], []⟩ 11).1 rfl,
   (c7_timestamps { c1_ticket_plain with status := "open", resolved_at := some 11 }
      [] [] 2026 13 ⟨[], [], [], [], []⟩ 11).1 rfl⟩

/-! ### C8 — comment side effects -/

/-- C8: comment creation writes exactly one history record, of type
`comment_added`; every notification goes to a non-author who is the
ticket creator or the assignee; the creator and the assignee (when
present) are notified whenever they are not the author — except that on
an internal comment every client-role recipient is dropped (and
non-client recipients are kept). -/
theorem c8_comment_post_save (c : TicketComment) :
    (comment_post_save c).1.action_type = "comment_added" ∧
    (∀ n ∈ (comment_post_save c).2, n.notification_type = "new_comment") ∧
    (∀ n ∈ (comment_post_save c).2, n.recipient ≠ c.author) ∧
    (∀ n ∈ (comment_post_save c).2,
      n.recipient = c.ticket.created_by ∨ c.ticket.assigned_to = some n.recipient) ∧
    (c.is_internal = true →
      ∀ n ∈ (comment_post_save c).2, n.recipient.is_client = false) ∧
    (c.is_internal = false → c.ticket.created_by ≠ c.author →
      c.ticket.created_by ∈ (comment_post_save c).2.map (fun n => n.recipient)) ∧
    (c.is_internal = false → ∀ a, c.ticket.assigned_to = some a → a ≠ c.author →
      a ∈ (comment_post_save c).2.map (fun n => n.recipient)) ∧
    (c.is_internal = true → c.ticket.created_by ≠ c.author →
      c.ticket.created_by.is_client = false →
      c.ticket.created_by ∈ (comment_post_save c).2.map (fun n => n.recipient)) ∧
    (c.is_internal = true → ∀ a, c.ticket.assigned_to = some a → a ≠ c.author →
      a.is_client = false →
      a ∈ (comment_post_save c).2.map (fun n => n.recipient)) := by
  unfold comment_post_save
  rcases hass : c.ticket.assigned_to with _ | a <;>
    by_cases hint : c.is_internal <;>
    by_cases hcr : c.ticket.created_by = c.author <;>
    (try by_cases ha : a = c.author) <;>
    simp_all [List.mem_filter, apply_ite (List.map (fun n : Notification => n.recipient))]
  all_goals aesop

/-- A ticket with a client creator and an agent assignee, and an agent
author distinct from both. -/
def c8_ticket : Ticket :=
  { c1_ticket_plain with
    pk := some 3, ticket_number := "BRTS-2026-0003",
    assigned_to := some (⟨2, "bob", "Bob", "B", "agent"⟩ : User) }

/-- The comment author: a second agent. -/
def c8_author : User := ⟨3, "carol", "Carol", "C", "agent"⟩

/-- Witness for C8 at a concrete internal and non-internal comment: the
internal one notifies only the agent assignee (the client creator is
dropped), the non-internal one notifies the creator and the assignee. -/
theorem c8_comment_post_save_witness :
    (comment_post_save ⟨c8_ticket, c8_author, "note", true⟩).1.action_type = "comment_added" ∧
    (⟨2, "bob", "Bob", "B", "agent"⟩ : User) ∈
      (comment_post_save ⟨c8_ticket, c8_author, "note", true⟩).2.map (fun n => n.recipient) ∧
    (∀ n ∈ (comment_post_save ⟨c8_ticket, c8_author, "note", true⟩).2,
      n.recipient.is_client = false) ∧
    c8_ticket.created_by ∈
      (comment_post_save ⟨c8_ticket, c8_author, "note", false⟩).2.map (fun n => n.recipient) :=
  ⟨(c8_comment_post_save ⟨c8_ticket, c8_author, "note", true⟩).1,
   (c8_comment_post_save ⟨c8_ticket, c8_author, "note", true⟩).2.2.2.2.2.2.2.2
     rfl ⟨2, "bob", "Bob", "B", "agent"⟩ (by decide) (by decide) (by decide),
   (c8_comment_post_save ⟨c8_ticket, c8_author, "note", true⟩).2.2.2.2.1 rfl,
   (c8_comment_post_save ⟨c8_ticket, c8_author, "note", false⟩).2.2.2.2.2.1
     rfl (by decide)⟩

/-! ### C5 / C6 — change-diff emission on updates -/

theorem status_diff_hist_types (i o : Ticket) :
    ∀ h ∈ (status_diff i o).1, h.action_type = "status_changed" := by
  intro h hx
  unfold status_diff at hx
  split_ifs at hx <;> simp_all

theorem status_diff_notif_types (i o : Ticket) :
    ∀ n ∈ (status_diff i o).2,
      n.notification_type = "status_changed" ∧ n.recipient = i.created_by := by
  intro n hx
  unfold status_diff at hx
  split_ifs at hx <;> simp_all

theorem assign_diff_hist_types (i o : Ticket) :
    ∀ h ∈ (assign_diff i o).1,
      h.action_type = "reassigned" ∨ h.action_type = "assigned" := by
  intro h hx
  unfold assign_diff at hx
  rcases hA : i.assigned_to with _ | a <;> rw [hA] at hx <;>
    split_ifs at hx <;> simp_all

theorem assign_diff_notif_types (i o : Ticket) :
    ∀ n ∈ (assign_diff i o).2,
      n.notification_type = "ticket_assigned" ∧ i.assigned_to = some n.recipient := by
  intro n hx
  unfold assign_diff at hx
  rcases hA : i.assigned_to with _ | a <;> rw [hA] at hx <;>
    split_ifs at hx <;> simp_all

theorem priority_diff_hist_types (i o : Ticket) :
    ∀ h ∈ (priority_diff i o).1, h.action_type = "priority_changed" := by
  intro h hx
  unfold priority_diff at hx
  split_ifs at hx <;> simp_all

theorem priority_diff_snd (i o : Ticket) : (priority_diff i o).2 = [] := by
  unfold priority_diff
  split_ifs <;> rfl

theorem escalation_diff_hist_types (i o : Ticket) (users : List User) :
    ∀ h ∈ (escalation_diff i o users).1, h.action_type = "escalated" := by
  intro h hx
  unfold escalation_diff at hx
  split_ifs at hx <;> simp_all

theorem escalation_diff_notif_types (i o : Ticket) (users : List User) :
    ∀ n ∈ (escalation_diff i o users).2,
      n.notification_type = "ticket_escalated" := by
  intro n hx
  unfold escalation_diff at hx
  split_ifs at hx <;> simp_all
  obtain ⟨a, -, ha⟩ := hx
  simp [← ha]

/-- Filtering the update emission for status-change records and
notifications yields exactly the status block. -/
theorem log_filter_status (i o : Ticket) (users : List User) :
    (log_ticket_changes i o users).1.filter
        (fun h => h.action_type = "status_changed") = (status_diff i o).1 ∧
    (log_ticket_changes i o users).2.filter
        (fun n => n.notification_type = "status_changed") = (status_diff i o).2 := by
  constructor
  · simp only [log_ticket_changes, List.filter_append]
    rw [List.filter_eq_self.mpr (fun h hx => by
          simp [status_diff_hist_types i o h hx]),
        List.filter_eq_nil_iff.mpr (fun h hx => by
          rcases assign_diff_hist_types i o h hx with h1 | h1 <;> simp [h1]),
        List.filter_eq_nil_iff.mpr (fun h hx => by
          simp [priority_diff_hist_types i o h hx]),
        List.filter_eq_nil_iff.mpr (fun h hx => by
          simp [escalation_diff_hist_types i o users h hx])]
    simp
  · simp only [log_ticket_changes, List.filter_append]
    rw [List.filter_eq_self.mpr (fun n hx => by
          simp [(status_diff_notif_types i o n hx).1]),
        List.filter_eq_nil_iff.mpr (fun n hx => by
          simp [(assign_diff_notif_types i o n hx).1]),
        List.filter_eq_nil_iff.mpr (fun n hx => by
          rw [priority_diff_snd] at hx
          cases hx),
        List.filter_eq_nil_iff.mpr (fun n hx => by
          simp [escalation_diff_notif_types i o users n hx])]
    simp

/-- Filtering the update emission for assignment records and
notifications yields exactly the assignment block. -/
theorem log_filter_assign (i o : Ticket) (users : List User) :
    (log_ticket_changes i o users).1.filter
        (fun h => h.action_type = "assigned" ∨ h.action_type = "reassigned") =
      (assign_diff i o).1 ∧
    (log_ticket_changes i o users).2.filter
        (fun n => n.notification_type = "ticket_assigned") = (assign_diff i o).2 := by
  constructor
  · simp only [log_ticket_changes, List.filter_append]
    rw [List.filter_eq_nil_iff.mpr (fun h hx => by
          simp [status_diff_hist_types i o h hx]),
        List.filter_eq_self.mpr (fun h hx => by
          rcases assign_diff_hist_types i o h hx with h1 | h1 <;> simp [h1]),
        List.filter_eq_nil_iff.mpr (fun h hx => by
          simp [priority_diff_hist_types i o h hx]),
        List.filter_eq_nil_iff.mpr (fun h hx => by
          simp [escalation_diff_hist_types i o users h hx])]
    simp
  · simp only [log_ticket_changes, List.filter_append]
    rw [List.filter_eq_nil_iff.mpr (fun n hx => by
          simp [(status_diff_notif_types i o n hx).1]),
        List.filter_eq_self.mpr (fun n hx => by
          simp [(assign_diff_notif_types i o n hx).1]),
        List.filter_eq_nil_iff.mpr (fun n hx => by
          rw [priority_diff_snd] at hx
          cases hx),
        List.filter_eq_nil_iff.mpr (fun n hx => by
          simp [escalation_diff_notif_types i o users n hx])]
    simp

/-- The update path's emissions are those of `log_ticket_changes` run on
the computed instance against the stored snapshot. -/
theorem update_ticket_emits (t : Ticket) (db : DB) (year now : Nat) (o : Ticket)
    (hfind : db.tickets.find? (fun x => x.pk = t.pk) = some o) :
    (update_ticket t db year now).newHistory =
      (log_ticket_changes (save_compute t db.rules db.tickets year now) o db.users).1 ∧
    (update_ticket t db year now).newNotifications =
      (log_ticket_changes (save_compute t db.rules db.tickets year now) o db.users).2 := by
  constructor <;> simp [update_ticket, hfind]

/-- C5: an update whose status differs from the stored status emits
exactly one `status_changed` history record, carrying the old and new
status, and exactly one `status_changed` notification, addressed to the
creator; an update with an unchanged status emits neither. -/
theorem c5_status_emission (t : Ticket) (db : DB) (year now : Nat) (o : Ticket)
    (hfind : db.tickets.find? (fun x => x.pk = t.pk) = some o) :
    (t.status ≠ o.status →
      ((update_ticket t db year now).newHistory.filter
          (fun h => h.action_type = "status_changed")).map
          (fun h => (h.old_value, h.new_value)) = [(some o.status, some t.status)] ∧
      ((update_ticket t db year now).newNotifications.filter
          (fun n => n.notification_type = "status_changed")).map
          (fun n => n.recipient) = [t.created_by]) ∧
    (t.status = o.status →
      ((update_ticket t db year now).newHistory.filter
          (fun h => h.action_type = "status_changed")) = [] ∧
      ((update_ticket t db year now).newNotifications.filter
          (fun n => n.notification_type = "status_changed")) = []) := by
  obtain ⟨he1, he2⟩ := update_ticket_emits t db year now o hfind
  obtain ⟨-, -, -, -, -, hst, hcb, -⟩ :=
    fixed_eq_iff.mp (save_compute_fixed t db.rules db.tickets year now)
  constructor
  · intro hne
    have hne1 : (save_compute t db.rules db.tickets year now).status ≠ o.status := by
      rw [hst]; exact hne
    rw [he1, he2, (log_filter_status _ o db.users).1,
        (log_filter_status _ o db.users).2]
    simp [status_diff, hne1, hne, hst, hcb]
  · intro heq
    have heq1 : (save_compute t db.rules db.tickets year now).status = o.status := by
      rw [hst]; exact heq
    rw [he1, he2, (log_filter_status _ o db.users).1,
        (log_filter_status _ o db.users).2]
    simp [status_diff, heq1]

/-- A stored open ticket for exercising the update emissions. -/
def c5_stored : Ticket :=
  { c1_ticket_plain with pk := some 1, ticket_number := "BRTS-2026-0001" }

/-- Witness for C5: resolving the stored open ticket emits one
`status_changed` record (open→resolved) and one notification to the
creator; re-saving without a status change emits neither. -/
theorem c5_status_emission_witness :
    ((update_ticket { c5_stored with status := "resolved" }
        ⟨[c5_stored], [], [], [], []⟩ 2026 20).newHistory.filter
        (fun h => h.action_type = "status_changed")).map
        (fun h => (h.old_value, h.new_value)) = [(some "open", some "resolved")] ∧
    ((update_ticket { c5_stored with status := "resolved" }
        ⟨[c5_stored], [], [], [], []⟩ 2026 20).newNotifications.filter
        (fun n => n.notification_type = "status_changed")).map
        (fun n => n.recipient) = [c5_stored.created_by] ∧
    ((update_ticket c5_stored ⟨[c5_stored], [], [], [], []⟩ 2026 21).newHistory.filter
        (fun h => h.action_type = "status_changed")) = [] :=
  have h1 := (c5_status_emission { c5_stored with status := "resolved" }
    ⟨[c5_stored], [], [], [], []⟩ 2026 20 c5_stored (by decide)).1 (by decide)
  have h2 := (c5_status_emission c5_stored
    ⟨[c5_stored], [], [], [], []⟩ 2026 21 c5_stored (by decide)).2 rfl
  ⟨h1.1, h1.2, h2.1⟩

/-- C6: an update that changes the assignee to a non-null user emits
exactly one assignment history record — tagged `assigned` when the
previous assignee was null and `reassigned` when it was non-null — and
exactly one `ticket_assigned` notification, addressed to the new
assignee and no one else; clearing the assignee to null, or leaving it
unchanged, emits no assignment record and no such notification. -/
theorem c6_assignment_emission (t : Ticket) (db : DB) (year now : Nat) (o : Ticket)
    (hfind : db.tickets.find? (fun x => x.pk = t.pk) = some o) :
    (∀ a, t.assigned_to = some a → t.assigned_to ≠ o.assigned_to →
      (o.assigned_to = none →
        ((update_ticket t db year now).newHistory.filter
            (fun h => h.action_type = "assigned" ∨ h.action_type = "reassigned")).map
            (fun h => h.action_type) = ["assigned"]) ∧
      (∀ b, o.assigned_to = some b →
        ((update_ticket t db year now).newHistory.filter
            (fun h => h.action_type = "assigned" ∨ h.action_type = "reassigned")).map
            (fun h => h.action_type) = ["reassigned"]) ∧
      ((update_ticket t db year now).newNotifications.filter
          (fun n => n.notification_type = "ticket_assigned")).map
          (fun n => n.recipient) = [a]) ∧
    (t.assigned_to = none →
      ((update_ticket t db year now).newHistory.filter
          (fun h => h.action_type = "assigned" ∨ h.action_type = "reassigned")) = [] ∧
      ((update_ticket t db year now).newNotifications.filter
          (fun n => n.notification_type = "ticket_assigned")) = []) ∧
    (t.assigned_to = o.assigned_to →
      ((update_ticket t db year now).newHistory.filter
          (fun h => h.action_type = "assigned" ∨ h.action_type = "reassigned")) = [] ∧
      ((update_ticket t db year now).newNotifications.filter
          (fun n => n.notification_type = "ticket_assigned")) = []) := by
  obtain ⟨he1, he2⟩ := update_ticket_emits t db year now o hfind
  obtain ⟨-, -, -, -, -, -, -, hass⟩ :=
    fixed_eq_iff.mp (save_compute_fixed t db.rules db.tickets year now)
  rw [he1, he2, (log_filter_assign _ o db.users).1, (log_filter_assign _ o db.users).2]
  refine ⟨?_, ?_, ?_⟩
  · intro a ha hne
    have ha1 : (save_compute t db.rules db.tickets year now).assigned_to = some a :=
      hass.trans ha
    have hne1 : (save_compute t db.rules db.tickets year now).assigned_to ≠
        o.assigned_to := by rw [hass]; exact hne
    have hne2 : some a ≠ o.assigned_to := by rw [← ha]; exact hne
    refine ⟨?_, ?_, ?_⟩
    · intro hnone
      simp [assign_diff, hne1, ha1, hnone]
    · intro b hb
      have hab : a ≠ b := by
        intro h
        exact hne (by rw [ha, hb, h])
      simp [assign_diff, ha1, hb, hab]
    · simp [assign_diff, hne1, ha1, hne2]
  · intro hnone
    have h1 : (save_compute t db.rules db.tickets year now).assigned_to = none :=
      hass.trans hnone
    unfold assign_diff
    rw [h1]
    split_ifs <;> simp
  · intro heq
    have h1 : ¬ ((save_compute t db.rules db.tickets year now).assigned_to ≠
        o.assigned_to) := by rw [hass, heq]; simp
    simp [assign_diff, h1]

/-- Two agents for the reassignment witness. -/
def c6_agent_a : User := ⟨2, "bob", "Bob", "B", "agent"⟩

def c6_agent_b : User := ⟨3, "carol", "Carol", "C", "agent"⟩

/-- The stored ticket, assigned to agent A. -/
def c6_stored : Ticket :=
  { c1_ticket_plain with
    pk := some 1, ticket_number := "BRTS-2026-0001",
    assigned_to := some c6_agent_a }

/-- Witness for C6: reassigning from agent A to agent B emits one
`reassigned` record and one `ticket_assigned` notification to B only;
clearing the assignee emits nothing. -/
theorem c6_assignment_emission_witness :
    ((update_ticket { c6_stored with assigned_to := some c6_agent_b }
        ⟨[c6_stored], [], [], [], []⟩ 2026 20).newHistory.filter
        (fun h => h.action_type = "assigned" ∨ h.action_type = "reassigned")).map
        (fun h => h.action_type) = ["reassigned"] ∧
    ((update_ticket { c6_stored with assigned_to := some c6_agent_b }
        ⟨[c6_stored], [], [], [], []⟩ 2026 20).newNotifications.filter
        (fun n => n.notification_type = "ticket_assigned")).map
        (fun n => n.recipient) = [c6_agent_b] ∧
    ((update_ticket { c6_stored with assigned_to := none }
        ⟨[c6_stored], [], [], [], []⟩ 2026 21).newHistory.filter
        (fun h => h.action_type = "assigned" ∨ h.action_type = "reassigned")) = [] :=
  have h1 := (c6_assignment_emission { c6_stored with assigned_to := some c6_agent_b }
    ⟨[c6_stored], [], [], [], []⟩ 2026 20 c6_stored (by decide)).1 c6_agent_b rfl
    (by decide)
  have h2 := (c6_assignment_emission { c6_stored with assigned_to := none }
    ⟨[c6_stored], [], [], [], []⟩ 2026 21 c6_stored (by decide)).2.1 rfl
  ⟨h1.2.1 c6_agent_a rfl, h1.2.2, h2.1⟩

/-! ### C10 — creation pathway emits no escalation records -/

theorem rule_matches_congr {a b : Ticket} (r : TriggerRule)
    (h : a.lower_text = b.lower_text) : rule_matches r a = rule_matches r b := by
  simp [rule_matches, h]

theorem check_trigger_rules_single_active (x : Ticket) (r : TriggerRule)
    (now : Nat) (hact : r.is_active = true) :
    check_trigger_rules x [r] now = apply_rule now x r := by
  simp [check_trigger_rules, hact]

theorem apply_rule_escalate (x : Ticket) (r : TriggerRule) (now : Nat)
    (hm : rule_matches r x = true) (ha : r.action = "escalate") :
    apply_rule now x r = escalate x now none := by
  simp [apply_rule, hm, ha]

theorem check_trigger_notifications_no_notify (x : Ticket) (r : TriggerRule)
    (h : r.action ≠ "notify") : check_trigger_notifications x [r] = [] := by
  simp [check_trigger_notifications, h]

/-- On a fresh instance the pure part of `save` ends with the trigger
rules applied to the auto-prioritized, numbered instance. -/
theorem save_body_pk_none (t : Ticket) (rules : List TriggerRule)
    (tickets : List Ticket) (year now : Nat) (hpk : t.pk = none) :
    save_body t rules tickets year now =
      check_trigger_rules
        (auto_prioritize (if t.ticket_number = "" then
          { t with ticket_number := generate_ticket_number year tickets } else t))
        rules now := by
  simp only [save_body]
  by_cases hn : t.ticket_number = "" <;> simp [hn, hpk]

/-- C10: creating a ticket with no category while a single active
`escalate` trigger rule matches it yields exactly one history record —
the `created` record for the new ticket — no `escalated` history record
and no notifications at all, even though the stored instance does come
out escalated: the escalation diff-emission runs only on the update
pathway. -/
theorem c10_create_escalate_silent (t : Ticket) (db : DB) (r : TriggerRule)
    (year now : Nat) (hcat : t.category = none) (hpk : t.pk = none)
    (hrules : db.rules = [r]) (hact : r.is_active = true)
    (haction : r.action = "escalate") (hmatch : rule_matches r t = true) :
    (create_ticket t db year now).newHistory =
      [created_history (create_ticket t db year now).ticket] ∧
    (created_history (create_ticket t db year now).ticket).action_type = "created" ∧
    (∀ h ∈ (create_ticket t db year now).newHistory, h.action_type ≠ "escalated") ∧
    (create_ticket t db year now).newNotifications = [] ∧
    (create_ticket t db year now).ticket.is_escalated = true := by
  have hfix := fixed_eq_iff.mp (save_compute_fixed t db.rules db.tickets year now)
  have hcat2 : (save_compute t db.rules db.tickets year now).category = none :=
    hfix.2.2.2.1.trans hcat
  have hskip : ¬ (({ save_compute t db.rules db.tickets year now with
      pk := some (next_pk db) } : Ticket).assigned_to = none ∧
      ({ save_compute t db.rules db.tickets year now with
        pk := some (next_pk db) } : Ticket).category.isSome) := by
    intro hand
    have := hand.2
    simp only [hcat2] at this
    exact (Bool.false_ne_true this)
  have hesc : (save_compute t db.rules db.tickets year now).is_escalated = true := by
    obtain ⟨-, -, -, -, -, -, -, -, -, -, hq, -⟩ :=
      nonstamp_eq_iff.mp (stamp_nonstamp (save_body t db.rules db.tickets year now) now)
    rw [save_compute, hq, hrules, save_body_pk_none t [r] db.tickets year now hpk,
        check_trigger_rules_single_active _ r now hact,
        apply_rule_escalate _ r now ?_ haction, escalate_is_escalated]
    rw [rule_matches_congr r (lower_text_congr (auto_prioritize_core _))]
    by_cases hn : t.ticket_number = ""
    · rw [if_pos hn, rule_matches_congr r
        (show ({ t with ticket_number := generate_ticket_number year db.tickets } :
          Ticket).lower_text = t.lower_text from rfl)]
      exact hmatch
    · rw [if_neg hn]
      exact hmatch
  have hnotif : check_trigger_notifications
      { save_compute t db.rules db.tickets year now with
        pk := some (next_pk db) } db.rules = [] := by
    rw [hrules]
    exact check_trigger_notifications_no_notify _ r (by simp [haction])
  refine ⟨?_, ?_, ?_, ?_, ?_⟩
  · simp [create_ticket, auto_assign_ticket, hskip, hnotif]
  · rfl
  · intro h hh
    have : (create_ticket t db year now).newHistory =
        [created_history (create_ticket t db year now).ticket] := by
      simp [create_ticket, auto_assign_ticket, hskip, hnotif]
    rw [this] at hh
    simp at hh
    rw [hh]
    simp [created_history]
  · simp [create_ticket, auto_assign_ticket, hskip, hnotif]
  · have : (create_ticket t db year now).ticket =
        { save_compute t db.rules db.tickets year now with
          pk := some (next_pk db) } := by
      simp [create_ticket, auto_assign_ticket, hskip, hnotif]
    rw [this]
    exact hesc

/-- The escalate rule and category-free ticket of the C10 witness. -/
def c10_rule : TriggerRule := ⟨"esc", "broken", "escalate", none, [], true⟩

def c10_ticket : Ticket :=
  { c1_ticket_plain with subject := "Printer broken" }

/-- Witness for C10: creating the category-free ticket against the
matching escalate rule emits exactly the `created` record, no
notifications, and the instance comes out escalated. -/
theorem c10_create_escalate_silent_witness :
    (create_ticket c10_ticket ⟨[], [c10_rule], [], [], []⟩ 2026 30).newHistory =
      [created_history (create_ticket c10_ticket
        ⟨[], [c10_rule], [], [], []⟩ 2026 30).ticket] ∧
    (create_ticket c10_ticket ⟨[], [c10_rule], [], [], []⟩ 2026 30).newNotifications = [] ∧
    (create_ticket c10_ticket ⟨[], [c10_rule], [], [], []⟩ 2026 30).ticket.is_escalated = true :=
  have h := c10_create_escalate_silent c10_ticket ⟨[], [c10_rule], [], [], []⟩
    c10_rule 2026 30 rfl rfl rfl rfl rfl (by decide)
  ⟨h.1, h.2.2.2.1, h.2.2.2.2⟩

/-! ### C9 — auto-assignment at creation -/

/-- A freshly inserted primary key is distinct from every stored one. -/
theorem next_pk_fresh (db : DB) : ∀ tk ∈ db.tickets, tk.pk ≠ some (next_pk db) := by
  intro tk htk heq
  have h1 : tk.pk.getD 0 ≤ (db.tickets.map (fun x => x.pk.getD 0)).foldl max 0 :=
    le_foldl_max_of_mem _ 0 _ (List.mem_map_of_mem _ htk)
  have h2 : next_pk db = (db.tickets.map (fun x => x.pk.getD 0)).foldl max 0 + 1 := by
    simp [next_pk, List.foldl_map]
  rw [heq] at h1
  simp [h2] at h1

theorem find?_append_of_none {α : Type} (l1 l2 : List α) (p : α → Bool)
    (h : ∀ x ∈ l1, p x = false) : (l1 ++ l2).find? p = l2.find? p := by
  induction l1 with
  | nil => rfl
  | cons a l ih =>
    rw [List.cons_append, List.find?_cons, h a (List.mem_cons_self ..)]
    exact ih (fun x hx => h x (List.mem_cons_of_mem a hx))

/-- Invariant of the minimisation fold: starting from a candidate, the
fold yields a candidate drawn from the start or the list whose workload
is a lower bound for the start and for every listed agent. -/
theorem pick_fold_spec (tickets : List Ticket) : ∀ (l : List User) (b : User),
    ∃ b2, l.foldl (pick_step tickets) (some (b, agent_workload b tickets)) =
        some (b2, agent_workload b2 tickets) ∧
      (b2 = b ∨ b2 ∈ l) ∧
      agent_workload b2 tickets ≤ agent_workload b tickets ∧
      ∀ u ∈ l, agent_workload b2 tickets ≤ agent_workload u tickets := by
  intro l
  induction l with
  | nil =>
    intro b
    exact ⟨b, rfl, Or.inl rfl, le_refl _, by intro u hu; cases hu⟩
  | cons a l ih =>
    intro b
    rw [List.foldl_cons]
    by_cases hw : agent_workload a tickets < agent_workload b tickets
    · rw [show pick_step tickets (some (b, agent_workload b tickets)) a =
          some (a, agent_workload a tickets) by simp [pick_step, hw]]
      obtain ⟨b2, hfold, hmem, hle, hall⟩ := ih a
      refine ⟨b2, hfold, ?_, ?_, ?_⟩
      · rcases hmem with h | h
        · exact Or.inr (h ▸ List.mem_cons_self ..)
        · exact Or.inr (List.mem_cons_of_mem a h)
      · exact le_trans hle (le_of_lt hw)
      · intro u hu
        rcases List.mem_cons.mp hu with h | h
        · exact h ▸ hle
        · exact hall u h
    · rw [show pick_step tickets (some (b, agent_workload b tickets)) a =
          some (b, agent_workload b tickets) by simp [pick_step, hw]]
      obtain ⟨b2, hfold, hmem, hle, hall⟩ := ih b
      refine ⟨b2, hfold, ?_, hle, ?_⟩
      · rcases hmem with h | h
        · exact Or.inl h
        · exact Or.inr (List.mem_cons_of_mem a h)
      · intro u hu
        rcases List.mem_cons.mp hu with h | h
        · exact h ▸ le_trans hle (le_of_not_lt hw)
        · exact hall u h

/-- On a nonempty agent pool the minimisation loop returns an agent of
the pool with minimal workload. -/
theorem pick_best_agent_spec (agents : List User) (tickets : List Ticket)
    (hne : agents ≠ []) :
    ∃ b, pick_best_agent agents tickets = some b ∧ b ∈ agents ∧
      ∀ u ∈ agents, agent_workload b tickets ≤ agent_workload u tickets := by
  rcases agents with _ | ⟨a, l⟩
  · exact absurd rfl hne
  · obtain ⟨b2, hfold, hmem, hle, hall⟩ := pick_fold_spec tickets l a
    refine ⟨b2, ?_, ?_, ?_⟩
    · simp only [pick_best_agent, List.foldl_cons]
      rw [show pick_step tickets none a = some (a, agent_workload a tickets) from rfl,
          hfold]
      rfl
    · rcases hmem with h | h
      · exact h ▸ List.mem_cons_self ..
      · exact List.mem_cons_of_mem a h
    · intro u hu
      rcases List.mem_cons.mp hu with h | h
      · exact h ▸ hle
      · exact hall u h

/-- Appending an unassigned ticket changes no agent's workload. -/
theorem agent_workload_append_unassigned (u : User) (l : List Ticket)
    (tk : Ticket) (h : tk.assigned_to = none) :
    agent_workload u (l ++ [tk]) = agent_workload u l := by
  simp [agent_workload, List.filter_append, h]

/-- The assigned-only nested save: computed instance, emissions and the
resulting ticket table, for a found snapshot. -/
theorem save_assigned_only_emits (x : Ticket) (db2 : DB) (year now : Nat)
    (o : Ticket) (hfind : db2.tickets.find? (fun y => y.pk = x.pk) = some o) :
    (save_assigned_only x db2 year now).ticket =
      save_compute x db2.rules db2.tickets year now ∧
    (save_assigned_only x db2 year now).newHistory =
      (log_ticket_changes (save_compute x db2.rules db2.tickets year now) o db2.users).1 ∧
    (save_assigned_only x db2 year now).newNotifications =
      (log_ticket_changes (save_compute x db2.rules db2.tickets year now) o db2.users).2 ∧
    (save_assigned_only x db2 year now).db.tickets =
      db2.tickets.map (fun y =>
        if y.pk = (save_compute x db2.rules db2.tickets year now).pk then
          { y with assigned_to :=
              (save_compute x db2.rules db2.tickets year now).assigned_to }
        else y) := by
  refine ⟨?_, ?_, ?_, ?_⟩ <;> simp [save_assigned_only, hfind]

/-- When status, priority and escalation state are unchanged, the update
emission is exactly the assignment block. -/
theorem log_only_assign (i o : Ticket) (users : List User)
    (h1 : i.status = o.status) (h2 : i.priority = o.priority)
    (h3 : i.is_escalated = o.is_escalated) :
    log_ticket_changes i o users = assign_diff i o := by
  have e1 : status_diff i o = ([], []) := by simp [status_diff, h1]
  have e2 : priority_diff i o = ([], []) := by simp [priority_diff, h2]
  have e3 : escalation_diff i o users = ([], []) := by
    unfold escalation_diff
    rw [if_neg]
    rintro ⟨ha, hb⟩
    rw [h3, hb] at ha
    cases ha
  simp [log_ticket_changes, e1, e2, e3]

/-- The assignment block on a none→some change: one `assigned` record
and one `ticket_assigned` notification to the new assignee. -/
theorem assign_diff_new (i o : Ticket) (a : User) (hi : i.assigned_to = some a)
    (ho : o.assigned_to = none) :
    assign_diff i o =
      ([{ ticket := i.pk.getD 0, action_type := "assigned", actor := none,
          description := "Ticket assigned to " ++ a.display_name,
          old_value := none, new_value := some (str_user a) }],
       [{ recipient := a, notification_type := "ticket_assigned",
          title := "New Ticket Assigned: " ++ i.ticket_number,
          message := "You have been assigned ticket: " ++ i.subject,
          ticket := i.pk }]) := by
  simp [assign_diff, hi, ho]

/-- Every trigger-notification carries the `trigger_activated` type. -/
theorem check_trigger_notifications_types (x : Ticket) (rules : List TriggerRule) :
    ∀ n ∈ check_trigger_notifications x rules,
      n.notification_type = "trigger_activated" := by
  intro n hx
  simp only [check_trigger_notifications, List.mem_flatten, List.mem_map] at hx
  obtain ⟨l, ⟨r, -, rfl⟩, hn⟩ := hx
  split_ifs at hn
  · obtain ⟨u, -, rfl⟩ := List.mem_map.mp hn
    rfl
  · cases hn

/-- Lemma: `auto_assign_ticket` on an unassigned categorised ticket with a
nonempty agent pool reduces to the nested assigned-only save. -/
theorem auto_assign_assigns (x : Ticket) (db2 : DB) (year now : Nat)
    (hx1 : x.assigned_to = none) (hx2 : x.category.isSome = true)
    (b : User)
    (hpick : pick_best_agent (db2.users.filter (fun u => u.role = "agent"))
      db2.tickets = some b)
    (hne : db2.users.filter (fun u => u.role = "agent") ≠ []) :
    auto_assign_ticket x db2 year now =
      save_assigned_only { x with assigned_to := some b } db2 year now := by
  have hemp : (db2.users.filter (fun u => u.role = "agent")).isEmpty = false := by
    simpa [List.isEmpty_iff] using hne
  simp [auto_assign_ticket, hx1, hx2, hemp, hpick]

/-- C9: creating a ticket with a category, no assignee, and at least one
agent-role user auto-assigns it to a strictly-agent-role user whose
open/in-progress workload is minimal among all agents, persists that
assignment in the store with the second save, and — because the second
save runs the update diff — the creation additionally emits exactly one
`assigned` history record besides the `created` record, and one
`ticket_assigned` notification, to the selected agent. -/
theorem c9_auto_assignment (t : Ticket) (db : DB) (year now : Nat)
    (_hpk : t.pk = none) (hass : t.assigned_to = none)
    (hcat : t.category.isSome = true)
    (hagent : ∃ u ∈ db.users, u.role = "agent") :
    ∃ best : User,
      (create_ticket t db year now).ticket.assigned_to = some best ∧
      best ∈ db.users ∧ best.role = "agent" ∧
      (∀ u ∈ db.users, u.role = "agent" →
        agent_workload best db.tickets ≤ agent_workload u db.tickets) ∧
      (create_ticket t db year now).db.tickets.map (fun tk => tk.assigned_to) =
        db.tickets.map (fun tk => tk.assigned_to) ++ [some best] ∧
      (create_ticket t db year now).newHistory.map (fun h => h.action_type) =
        ["created", "assigned"] ∧
      ((create_ticket t db year now).newNotifications.filter
          (fun n => n.notification_type = "ticket_assigned")).map
          (fun n => n.recipient) = [best] := by
  obtain ⟨u0, hu0m, hu0r⟩ := hagent
  simp only [create_ticket]
  set s := save_compute t db.rules db.tickets year now with hs
  set t2 : Ticket := { s with pk := some (next_pk db) } with ht2
  set db2 : DB :=
    { tickets := db.tickets ++ [t2], rules := db.rules, users := db.users,
      history := db.history ++ [created_history t2],
      notifications := db.notifications ++ check_trigger_notifications t2 db.rules }
    with hdb2
  obtain ⟨hfpk, -, -, hfcat, -, hfst, -, hfass⟩ :=
    fixed_eq_iff.mp (save_compute_fixed t db.rules db.tickets year now)
  have ht2ass : t2.assigned_to = none := hfass.trans hass
  have ht2cat : t2.category.isSome = true := by
    rw [(hfcat : t2.category = t.category)]
    exact hcat
  have hne : db.users.filter (fun u => u.role = "agent") ≠ [] :=
    List.ne_nil_of_mem (List.mem_filter.mpr ⟨hu0m, by simp [hu0r]⟩)
  obtain ⟨best, hpick, hbmem, hmin⟩ := pick_best_agent_spec
    (db.users.filter (fun u => u.role = "agent")) (db.tickets ++ [t2]) hne
  have hbu : best ∈ db.users := (List.mem_filter.mp hbmem).1
  have hbrole : best.role = "agent" := by
    have h := (List.mem_filter.mp hbmem).2
    simpa using h
  have hwl : ∀ u : User, agent_workload u (db.tickets ++ [t2]) =
      agent_workload u db.tickets :=
    fun u => agent_workload_append_unassigned u db.tickets t2 ht2ass
  have hmin2 : ∀ u ∈ db.users, u.role = "agent" →
      agent_workload best db.tickets ≤ agent_workload u db.tickets := by
    intro u hu hr
    have h := hmin u (List.mem_filter.mpr ⟨hu, by simp [hr]⟩)
    rwa [hwl best, hwl u] at h
  have hpick2 : pick_best_agent (db2.users.filter (fun u => u.role = "agent"))
      db2.tickets = some best := hpick
  have hne2 : db2.users.filter (fun u => u.role = "agent") ≠ [] := hne
  rw [auto_assign_assigns t2 db2 year now ht2ass ht2cat best hpick2 hne2]
  set x2 : Ticket := { t2 with assigned_to := some best } with hx2d
  have hx2pk : x2.pk = some (next_pk db) := rfl
  have hfind : db2.tickets.find? (fun y => y.pk = x2.pk) = some t2 := by
    have h1 : db2.tickets = db.tickets ++ [t2] := rfl
    rw [h1, find?_append_of_none _ _ _ (fun y hy => by
      simp only [hx2pk]
      simp [next_pk_fresh db y hy])]
    simp [List.find?_cons, hx2pk]
  obtain ⟨E1, E2, E3, E4⟩ := save_assigned_only_emits x2 db2 year now t2 hfind
  rw [E1, E2, E3, E4]
  set s2 := save_compute x2 db2.rules db2.tickets year now with hs2
  obtain ⟨h2pk, -, -, -, -, h2st, -, h2ass⟩ :=
    fixed_eq_iff.mp (save_compute_fixed x2 db2.rules db2.tickets year now)
  obtain ⟨h2pr, h2esc, -, -⟩ :=
    save_compute_pk_some x2 db2.rules db2.tickets year now hx2pk
  have hs2ass : s2.assigned_to = some best :=
    h2ass.trans (rfl : x2.assigned_to = some best)
  have hs2pk : s2.pk = some (next_pk db) := h2pk.trans hx2pk
  have hlog : log_ticket_changes s2 t2 db2.users = assign_diff s2 t2 :=
    log_only_assign s2 t2 db2.users
      (h2st.trans (rfl : x2.status = t2.status))
      (h2pr.trans (rfl : x2.priority = t2.priority))
      (h2esc.trans (rfl : x2.is_escalated = t2.is_escalated))
  have hdiff := assign_diff_new s2 t2 best hs2ass ht2ass
  rw [hlog, hdiff]
  refine ⟨best, hs2ass, hbu, hbrole, hmin2, ?_, ?_, ?_⟩
  · have hmap : (db.tickets ++ [t2]).map (fun y =>
        if y.pk = s2.pk then { y with assigned_to := s2.assigned_to } else y) =
        db.tickets ++ [{ t2 with assigned_to := some best }] := by
      rw [List.map_append]
      congr 1
      · refine (List.map_congr_left (fun y hy => ?_)).trans (List.map_id _)
        rw [if_neg (by rw [hs2pk]; exact next_pk_fresh db y hy)]
        rfl
      · simp [if_pos (show t2.pk = s2.pk by rw [hs2pk]), hs2ass]
    rw [show db2.tickets = db.tickets ++ [t2] from rfl, hmap, List.map_append]
    simp
  · simp [created_history]
  · rw [List.filter_append,
        List.filter_eq_nil_iff.mpr (fun n hn => by
          simp [check_trigger_notifications_types t2 db.rules n hn])]
    simp

/-- Users for the auto-assignment witness: a client and two agents. -/
def c9_client : User := ⟨1, "alice", "Alice", "A", "client"⟩

def c9_bob : User := ⟨2, "bob", "Bob", "B", "agent"⟩

def c9_carol : User := ⟨3, "carol", "Carol", "C", "agent"⟩

/-- A stored open ticket assigned to Bob, giving him workload 1. -/
def c9_existing : Ticket :=
  { pk := some 1, ticket_number := "BRTS-2026-0001", subject := "old",
    description := "old issue", category := some 1, severity := "medium",
    priority := "medium", status := "open", created_by := c9_client,
    assigned_to := some c9_bob, resolved_at := none, closed_at := none,
    is_escalated := false, escalated_at := none, escalated_by := none }

/-- The new categorised, unassigned ticket. -/
def c9_new : Ticket :=
  { pk := none, ticket_number := "", subject := "hello",
    description := "world", category := some 1, severity := "medium",
    priority := "medium", status := "open", created_by := c9_client,
    assigned_to := none, resolved_at := none, closed_at := none,
    is_escalated := false, escalated_at := none, escalated_by := none }

def c9_db : DB := ⟨[c9_existing], [], [c9_client, c9_bob, c9_carol], [], []⟩

/-- Witness for C9: with Bob at workload 1 and Carol at 0, creation
assigns the new ticket to Carol, emits `created` plus `assigned`
history, and notifies Carol. -/
theorem c9_auto_assignment_witness :
    (create_ticket c9_new c9_db 2026 40).ticket.assigned_to = some c9_carol ∧
    (create_ticket c9_new c9_db 2026 40).newHistory.map (fun h => h.action_type) =
      ["created", "assigned"] ∧
    ((create_ticket c9_new c9_db 2026 40).newNotifications.filter
        (fun n => n.notification_type = "ticket_assigned")).map
        (fun n => n.recipient) = [c9_carol] := by
  obtain ⟨best, h1, -, -, -, -, h6, h7⟩ :=
    c9_auto_assignment c9_new c9_db 2026 40 rfl rfl rfl ⟨c9_bob, by decide, rfl⟩
  have hc : (create_ticket c9_new c9_db 2026 40).ticket.assigned_to =
      some c9_carol := by decide
  have hb : best = c9_carol := by
    rw [h1] at hc
    exact Option.some.inj hc
  rw [hb] at h7
  exact ⟨hc, h6, h7⟩

end Helpdesk
